import Mathlib

/-!
# RFM69 driver (`rfm69.c`): embedding and verified properties

The driver talks to the radio chip through three bus primitives
(`rfm69_nss_assert`, `rfm69_nss_deassert`, `rfm69_spi_transfer_byte`) and a
delay primitive.  Those live in `spi.h` / `delay.h`, which are not part of the
sources at hand, so they are taken as a parameter: a `Bus σ` is an arbitrary
deterministic machine over a state type `σ`.  Every driver function is
translated as an explicit state-passing function over `Dev σ`, which pairs the
bus state with the chronological trace of bus events.

`uint8_t` values are natural numbers reduced `% 256` where the C code converts
to `uint8_t`; `int` values are `Int`.

The register map and bit masks (`rfm69.h`) and the error codes (`err.h`) are
not part of the sources either; they are the fields of the parameter
structures `Defs` and `ErrCodes`.
-/

namespace RFM69

/-! ## Bus transport (external collaborator) -/

/-- One observable action of the driver on the bus transport. -/
inductive BusEvent where
  | nssAssert : BusEvent
  | nssDeassert : BusEvent
  | transfer (out : Nat) (inp : Nat) : BusEvent
  | delay (ms : Nat) : BusEvent
  deriving DecidableEq

/-- The bus transport and delay primitives the driver is linked against
(`spi.h`, `delay.h`): an arbitrary deterministic machine with state `σ`.
`transfer_byte` is the full-duplex byte exchange: it receives the byte sent
and yields the byte received together with the next state. -/
structure Bus (σ : Type) where
  nss_assert : σ → σ
  nss_deassert : σ → σ
  transfer_byte : σ → Nat → Nat × σ
  delay_ms : σ → Nat → σ

/-- Driver-side view of the world: the state of the bus machine and the
chronological list of bus events issued so far. -/
structure Dev (σ : Type) where
  chip : σ
  trace : List BusEvent

/-- Register map, bit masks and mode values of `rfm69.h` (not in the sources:
a parameter).  `RFM69_OPMODE_Mode_VALUE` is a function-like macro. -/
structure Defs where
  RFM69_FIFO : Nat
  RFM69_OPMODE : Nat
  RFM69_OPMODE_Mode_MASK : Nat
  RFM69_OPMODE_Mode_VALUE : Nat → Nat
  RFM69_OPMODE_Mode_STDBY : Nat
  RFM69_OPMODE_Mode_TX : Nat
  RFM69_IRQFLAGS1 : Nat
  RFM69_IRQFLAGS1_ModeReady : Nat
  RFM69_IRQFLAGS2 : Nat
  RFM69_IRQFLAGS2_PayloadReady_MASK : Nat
  RFM69_IRQFLAGS2_PacketSent : Nat
  RFM69_RSSICONFIG : Nat
  RFM69_RSSICONFIG_RssiStart : Nat
  RFM69_RSSICONFIG_RssiDone : Nat
  RFM69_RSSIVALUE : Nat

/-- Result codes of `err.h` (not in the sources: a parameter). -/
structure ErrCodes where
  E_OK : Int
  E_TIMEOUT : Int
  E_SPI : Int
  E_PKT_TOO_LONG : Int

section Driver

variable {σ : Type}

/-- Source `rfm69_nss_assert()`: assert chip-select. -/
def rfm69_nss_assert (bus : Bus σ) (s : Dev σ) : Dev σ :=
  { chip := bus.nss_assert s.chip, trace := s.trace ++ [BusEvent.nssAssert] }

/-- Source `rfm69_nss_deassert()`: release chip-select. -/
def rfm69_nss_deassert (bus : Bus σ) (s : Dev σ) : Dev σ :=
  { chip := bus.nss_deassert s.chip, trace := s.trace ++ [BusEvent.nssDeassert] }

/-- Source `rfm69_spi_transfer_byte(out)` (also called `spi_transfer_byte` in
`rfm69_frame_rx`): one full-duplex byte exchange.  Both directions carry a
`uint8_t`. -/
def rfm69_spi_transfer_byte (bus : Bus σ) (out : Nat) (s : Dev σ) : Nat × Dev σ :=
  let r := bus.transfer_byte s.chip (out % 256)
  (r.1 % 256,
    { chip := r.2, trace := s.trace ++ [BusEvent.transfer (out % 256) (r.1 % 256)] })

/-- Source `delayMilliseconds(ms)`. -/
def delayMilliseconds (bus : Bus σ) (ms : Nat) (s : Dev σ) : Dev σ :=
  { chip := bus.delay_ms s.chip ms, trace := s.trace ++ [BusEvent.delay ms] }

/-- Source `uint8_t rfm69_register_read (uint8_t reg_addr)`: chip-select, the address
byte, a dummy byte `0xff` whose answer is the register value, release. -/
def rfm69_register_read (bus : Bus σ) (reg_addr : Nat) (s : Dev σ) : Nat × Dev σ :=
  let s1 := rfm69_nss_assert bus s
  let r1 := rfm69_spi_transfer_byte bus reg_addr s1
  let r2 := rfm69_spi_transfer_byte bus 0xff r1.2
  let s3 := rfm69_nss_deassert bus r2.2
  (r2.1, s3)

/-- Source `void rfm69_register_write (uint8_t reg_addr, uint8_t reg_value)`:
chip-select, the address byte with bit 7 set, the value byte, release. -/
def rfm69_register_write (bus : Bus σ) (reg_addr reg_value : Nat) (s : Dev σ) : Dev σ :=
  let s1 := rfm69_nss_assert bus s
  let r1 := rfm69_spi_transfer_byte bus ((reg_addr % 256) ||| 0x80) s1
  let r2 := rfm69_spi_transfer_byte bus reg_value r1.2
  rfm69_nss_deassert bus r2.2

/-- The `while` loop of `rfm69_wait_for_bit_high`, indexed by the current value
of the local `niter`.  One round reads the register; if the masked value is
zero, `niter` is decremented and the loop leaves with `E_TIMEOUT` when it has
reached zero; otherwise the loop leaves with `E_OK`.  The loop is entered with
`niter = 50000`, so the `niter = 0` entry state never arises. -/
def rfm69_wait_for_bit_high_loop (bus : Bus σ) (err : ErrCodes) (reg_addr mask : Nat) :
    Nat → Dev σ → Int × Dev σ
  | 0, s => (err.E_TIMEOUT, s)
  | niter + 1, s =>
    let r := rfm69_register_read bus reg_addr s
    if (r.1 &&& (mask % 256)) = 0 then
      if niter = 0 then (err.E_TIMEOUT, r.2)
      else rfm69_wait_for_bit_high_loop bus err reg_addr mask niter r.2
    else (err.E_OK, r.2)

/-- Source `int rfm69_wait_for_bit_high (uint8_t reg_addr, uint8_t mask)`. -/
def rfm69_wait_for_bit_high (bus : Bus σ) (err : ErrCodes) (reg_addr mask : Nat)
    (s : Dev σ) : Int × Dev σ :=
  rfm69_wait_for_bit_high_loop bus err reg_addr mask 50000 s

/-- The value `rfm69_mode` writes back to `RFM69_OPMODE` when it has read
`regVal`: `regVal &= ~MASK; regVal |= VALUE(mode);` on a `uint8_t`. -/
def opmode_update (d : Defs) (mode regVal : Nat) : Nat :=
  ((regVal &&& (255 ^^^ (d.RFM69_OPMODE_Mode_MASK % 256)))
    ||| d.RFM69_OPMODE_Mode_VALUE (mode % 256)) % 256

/-- Source `int rfm69_mode(uint8_t mode)`. -/
def rfm69_mode (bus : Bus σ) (d : Defs) (err : ErrCodes) (mode : Nat) (s : Dev σ) :
    Int × Dev σ :=
  let r := rfm69_register_read bus d.RFM69_OPMODE s
  let regVal := opmode_update d mode r.1
  let s2 := rfm69_register_write bus d.RFM69_OPMODE regVal r.2
  rfm69_wait_for_bit_high bus err d.RFM69_IRQFLAGS1 d.RFM69_IRQFLAGS1_ModeReady s2

/-- Source `int rfm69_test ()`: the scratch register is AES key register 1 (`0x3E`). -/
def rfm69_test (bus : Bus σ) (s : Dev σ) : Int × Dev σ :=
  let r0 := rfm69_register_read bus 0x3E s
  let aeskey1 := r0.1
  let s1 := rfm69_register_write bus 0x3E 0x55 r0.2
  let r1 := rfm69_register_read bus 0x3E s1
  if r1.1 ≠ 0x55 then (-1, r1.2)
  else
    let s2 := rfm69_register_write bus 0x3E 0xAA r1.2
    let r2 := rfm69_register_read bus 0x3E s2
    if r2.1 ≠ 0xAA then (-1, r2.2)
    else (0, rfm69_register_write bus 0x3E aeskey1 r2.2)

/-- Source `uint8_t rfm69_rssi ()`: the result of the wait is discarded. -/
def rfm69_rssi (bus : Bus σ) (d : Defs) (err : ErrCodes) (s : Dev σ) : Nat × Dev σ :=
  let s1 := rfm69_register_write bus d.RFM69_RSSICONFIG d.RFM69_RSSICONFIG_RssiStart s
  let w := rfm69_wait_for_bit_high bus err d.RFM69_RSSICONFIG d.RFM69_RSSICONFIG_RssiDone s1
  rfm69_register_read bus d.RFM69_RSSIVALUE w.2

/-- Source `uint8_t rfm69_temperature ()`. -/
def rfm69_temperature (bus : Bus σ) (d : Defs) (err : ErrCodes) (s : Dev σ) : Nat × Dev σ :=
  let r0 := rfm69_register_read bus d.RFM69_OPMODE s
  let currentMode := r0.1
  let m := rfm69_mode bus d err d.RFM69_OPMODE_Mode_STDBY r0.2
  let s2 := rfm69_register_write bus 0x4E 0x8 m.2
  let s3 := delayMilliseconds bus 20 s2
  let r4 := rfm69_register_read bus 0x4F s3
  let s5 := rfm69_register_write bus d.RFM69_OPMODE currentMode r4.2
  (r4.1, s5)

/-- Outcome of the payload loop of `rfm69_frame_rx`: `too_long` is set when the
loop left through `return E_PKT_TOO_LONG`. -/
structure RxLoop (σ : Type) where
  too_long : Bool
  buf : Nat → Nat
  dev : Dev σ

/-- The payload loop `for (i = 0; i < frame_length; i++)` of `rfm69_frame_rx`.
The first argument is the number of rounds left, `frame_length - i`; the
second is `i`.  Each round first compares `i` with `maxlen` (an `int`) and
then stores one received byte in `buf[i]`. -/
def rfm69_frame_rx_loop (bus : Bus σ) (maxlen : Int) :
    Nat → Nat → (Nat → Nat) → Dev σ → RxLoop σ
  | 0, _, buf, s => { too_long := false, buf := buf, dev := s }
  | n + 1, i, buf, s =>
    if (i : Int) = maxlen then { too_long := true, buf := buf, dev := s }
    else
      let r := rfm69_spi_transfer_byte bus 0 s
      rfm69_frame_rx_loop bus maxlen n (i + 1) (Function.update buf i r.1) r.2

/-- Everything `rfm69_frame_rx` leaves behind: the `int` it returns, the
caller buffer (`buf[i]` for `i ≥ 0`), the cell behind the `rssi` pointer and
the bus. -/
structure RxResult (σ : Type) where
  ret : Int
  buf : Nat → Nat
  rssi : Option Nat
  dev : Dev σ

/-- Source `int rfm69_frame_rx(uint8_t *buf, int maxlen, uint8_t *rssi)`.
The buffer is the memory at `buf[0], buf[1], ...`; `rssi` is `none` for a null
pointer and `some v` for a pointer to a separate byte that holds `v`. -/
def rfm69_frame_rx (bus : Bus σ) (d : Defs) (err : ErrCodes) (buf : Nat → Nat)
    (maxlen : Int) (rssi : Option Nat) (s : Dev σ) : RxResult σ :=
  let s1 := rfm69_nss_assert bus s
  let r1 := rfm69_spi_transfer_byte bus d.RFM69_FIFO s1
  let r2 := rfm69_spi_transfer_byte bus 0 r1.2
  if r2.1 = 0xff then
    { ret := err.E_SPI, buf := buf, rssi := rssi, dev := r2.2 }
  else
    let frame_length := if r2.1 > 66 then 66 else r2.1
    let l := rfm69_frame_rx_loop bus maxlen frame_length 0 buf r2.2
    if l.too_long then
      { ret := err.E_PKT_TOO_LONG, buf := l.buf, rssi := rssi, dev := l.dev }
    else
      let s3 := rfm69_nss_deassert bus l.dev
      match rssi with
      | none => { ret := (frame_length : Int), buf := l.buf, rssi := none, dev := s3 }
      | some _ =>
        let q := rfm69_rssi bus d err s3
        { ret := (frame_length : Int), buf := l.buf, rssi := some q.1, dev := q.2 }

/-- Source `uint8_t rfm69_payload_ready()`. -/
def rfm69_payload_ready (bus : Bus σ) (d : Defs) (s : Dev σ) : Nat × Dev σ :=
  let r := rfm69_register_read bus d.RFM69_IRQFLAGS2 s
  (r.1 &&& (d.RFM69_IRQFLAGS2_PayloadReady_MASK % 256), r.2)

/-- Source `void rfm69_config()`.  The list is the table `RFM69_CONFIG` from
row `i` on (rows are pairs of `uint8_t`): the loop writes row `i` and moves on
while `RFM69_CONFIG[i][0] != 255`.  Reading a row past the end of the table
has no defined result: `none`. -/
def rfm69_config (bus : Bus σ) : List (Nat × Nat) → Dev σ → Option (Dev σ)
  | [], _ => none
  | row :: rest, s =>
    if row.1 ≠ 255 then rfm69_config bus rest (rfm69_register_write bus row.1 row.2 s)
    else some s

/-- The payload loop `for (i = 0; i < len; i++)` of `rfm69_frame_tx`.  The
first argument is the number of rounds left, the second is `i`. -/
def rfm69_frame_tx_loop (bus : Bus σ) (buf : Nat → Nat) : Nat → Nat → Dev σ → Dev σ
  | 0, _, s => s
  | n + 1, i, s =>
    rfm69_frame_tx_loop bus buf n (i + 1) (rfm69_spi_transfer_byte bus (buf i) s).2

/-- Source `void rfm69_frame_tx(uint8_t *buf, int len)`.  The buffer is only
read; the results of both `rfm69_mode` calls and of the final wait are
discarded. -/
def rfm69_frame_tx (bus : Bus σ) (d : Defs) (err : ErrCodes) (buf : Nat → Nat) (len : Int)
    (s : Dev σ) : Dev σ :=
  let m1 := rfm69_mode bus d err d.RFM69_OPMODE_Mode_STDBY s
  let s1 := rfm69_nss_assert bus m1.2
  let r1 := rfm69_spi_transfer_byte bus (d.RFM69_FIFO ||| 0x80) s1
  let r2 := rfm69_spi_transfer_byte bus (len % 256).toNat r1.2
  let s3 := rfm69_frame_tx_loop bus buf len.toNat 0 r2.2
  let s4 := rfm69_nss_deassert bus s3
  let m2 := rfm69_mode bus d err d.RFM69_OPMODE_Mode_TX s4
  (rfm69_wait_for_bit_high bus err d.RFM69_IRQFLAGS2 d.RFM69_IRQFLAGS2_PacketSent m2.2).2

/-! ## Vocabulary for stating the properties -/

/-- The bus after `k` consecutive reads of register `reg_addr`. -/
def after_reads (bus : Bus σ) (reg_addr : Nat) : Nat → Dev σ → Dev σ
  | 0, s => s
  | k + 1, s => after_reads bus reg_addr k (rfm69_register_read bus reg_addr s).2

/-- The value returned by read number `k` (counted from 0) in a run of
consecutive reads of register `reg_addr` that starts in `s`. -/
def nth_read (bus : Bus σ) (reg_addr k : Nat) (s : Dev σ) : Nat :=
  (rfm69_register_read bus reg_addr (after_reads bus reg_addr k s)).1

/-- The bytes returned by `n` consecutive transfers of a zero byte starting in
`s` (the payload bytes of a FIFO read, in bus order) and the bus afterwards. -/
def read_bytes (bus : Bus σ) : Nat → Dev σ → List Nat × Dev σ
  | 0, s => ([], s)
  | n + 1, s =>
    let r := rfm69_spi_transfer_byte bus 0 s
    let q := read_bytes bus n r.2
    (r.1 :: q.1, q.2)

/-- The first three bus actions of `rfm69_frame_rx`: chip-select, the FIFO
address byte and the transfer that returns the length byte. -/
def rx_header (bus : Bus σ) (d : Defs) (s : Dev σ) : Nat × Dev σ :=
  rfm69_spi_transfer_byte bus 0
    (rfm69_spi_transfer_byte bus d.RFM69_FIFO (rfm69_nss_assert bus s)).2

/-- The last step of a successful `rfm69_frame_rx`: with a non-null `rssi`
pointer the cell behind it receives `rfm69_rssi()`. -/
def rx_rssi (bus : Bus σ) (d : Defs) (err : ErrCodes) (rssi : Option Nat) (s : Dev σ) :
    Option Nat × Dev σ :=
  match rssi with
  | none => (none, s)
  | some _ => (some (rfm69_rssi bus d err s).1, (rfm69_rssi bus d err s).2)

/-- The first `n` payload bytes the bus returns after the length byte of a
FIFO read started in `s`, in bus order. -/
def payload (bus : Bus σ) (d : Defs) (s : Dev σ) (n : Nat) : List Nat :=
  (read_bytes bus n (rx_header bus d s).2).1

/-- The bus after the FIFO address byte, the length byte and `n` payload
bytes have been transferred, starting in `s`. -/
def after_payload (bus : Bus σ) (d : Defs) (s : Dev σ) (n : Nat) : Dev σ :=
  (read_bytes bus n (rx_header bus d s).2).2

/-- The read-back of `0x3E` that follows the write of `0x55` in `rfm69_test`
(its value and the bus afterwards). -/
def test_first_readback (bus : Bus σ) (s : Dev σ) : Nat × Dev σ :=
  rfm69_register_read bus 0x3E
    (rfm69_register_write bus 0x3E 0x55 (rfm69_register_read bus 0x3E s).2)

/-- The read-back of `0x3E` that follows a write of `0xAA` issued right after
the first read-back. -/
def test_second_readback (bus : Bus σ) (s : Dev σ) : Nat × Dev σ :=
  rfm69_register_read bus 0x3E
    (rfm69_register_write bus 0x3E 0xAA (test_first_readback bus s).2)

/-- The bus right after the `RFM69_RSSICONFIG` write of `rfm69_rssi`, that is,
where its bounded wait starts. -/
def rssi_started (bus : Bus σ) (d : Defs) (s : Dev σ) : Dev σ :=
  rfm69_register_write bus d.RFM69_RSSICONFIG d.RFM69_RSSICONFIG_RssiStart s

/-- The bytes sent by the transfers of a trace, in order. -/
def sent : List BusEvent → List Nat
  | [] => []
  | BusEvent.transfer out _ :: t => out :: sent t
  | _ :: t => sent t

/-- The level of the chip-select line after a trace: asserted (`true`) when
the last chip-select event is an assert; released when it is a release or
when there is none. -/
def nss_line (t : List BusEvent) : Bool :=
  t.foldl (fun b e => match e with
    | BusEvent.nssAssert => true
    | BusEvent.nssDeassert => false
    | _ => b) false

/-- The bytes that one register write per row sends, in row order: the address
with bit 7 set, then the value. -/
def config_bytes : List (Nat × Nat) → List Nat
  | [] => []
  | row :: rest => ((row.1 % 256) ||| 0x80) :: (row.2 % 256) :: config_bytes rest

/-- The rows of a configuration table that precede its first row with
address 255. -/
def config_rows (table : List (Nat × Nat)) : List (Nat × Nat) :=
  table.takeWhile (fun row => decide (row.1 ≠ 255))

/-- The bus after the first step of `rfm69_frame_tx`, the call
`rfm69_mode(RFM69_OPMODE_Mode_STDBY)`. -/
def tx_standby (bus : Bus σ) (d : Defs) (err : ErrCodes) (s : Dev σ) : Dev σ :=
  (rfm69_mode bus d err d.RFM69_OPMODE_Mode_STDBY s).2

/-- The bus after the FIFO transaction of `rfm69_frame_tx` started in `s`:
chip-select, the command byte, the length byte, the payload loop, release. -/
def tx_fifo (bus : Bus σ) (d : Defs) (buf : Nat → Nat) (len : Int) (s : Dev σ) : Dev σ :=
  rfm69_nss_deassert bus
    (rfm69_frame_tx_loop bus buf len.toNat 0
      (rfm69_spi_transfer_byte bus (len % 256).toNat
        (rfm69_spi_transfer_byte bus (d.RFM69_FIFO ||| 0x80) (rfm69_nss_assert bus s)).2).2)

/-- The bus after the third step of `rfm69_frame_tx`, the call
`rfm69_mode(RFM69_OPMODE_Mode_TX)` that follows the FIFO transaction. -/
def tx_transmit (bus : Bus σ) (d : Defs) (err : ErrCodes) (buf : Nat → Nat) (len : Int)
    (s : Dev σ) : Dev σ :=
  (rfm69_mode bus d err d.RFM69_OPMODE_Mode_TX
    (tx_fifo bus d buf len (tx_standby bus d err s))).2

/-- The number of chip-select transactions of a trace whose command byte (the
first byte transferred after chip-select is asserted) is `c`.  The flag tells
whether the next transfer is a command byte. -/
def writes_to (c : Nat) : Bool → List BusEvent → Nat
  | _, [] => 0
  | _, BusEvent.nssAssert :: t => writes_to c true t
  | true, BusEvent.transfer out _ :: t => (if out = c then 1 else 0) + writes_to c false t
  | false, BusEvent.transfer _ _ :: t => writes_to c false t
  | _, BusEvent.nssDeassert :: t => writes_to c false t
  | b, BusEvent.delay _ :: t => writes_to c b t

/-- The command byte of a write to `RFM69_OPMODE`. -/
def opmode_write_command (d : Defs) : Nat :=
  (d.RFM69_OPMODE % 256) ||| 0x80

/-- The number of writes to `RFM69_OPMODE` in a list of bus events. -/
def opmode_writes (d : Defs) (t : List BusEvent) : Nat :=
  writes_to (opmode_write_command d) false t

/-- The bus events issued between the bus states `s` and `s1`. -/
def emitted (s s1 : Dev σ) : List BusEvent :=
  s1.trace.drop s.trace.length

/-- Going from `s` to `s1` appends bus events that hold `k` transactions with
command byte `c`, wherever in a transaction `s` stands. -/
def emits (c : Nat) (s s1 : Dev σ) (k : Nat) : Prop :=
  ∃ seg, s1.trace = s.trace ++ seg ∧ ∀ b, writes_to c b seg = k

/-- The register addresses of the map are 7-bit addresses, and the
operating-mode register is none of the FIFO, the RSSI configuration register
and the temperature trigger register `0x4E`. -/
def regular_map (d : Defs) : Prop :=
  d.RFM69_OPMODE < 128 ∧ d.RFM69_FIFO < 128 ∧ d.RFM69_IRQFLAGS1 < 128 ∧
  d.RFM69_IRQFLAGS2 < 128 ∧ d.RFM69_RSSICONFIG < 128 ∧ d.RFM69_RSSIVALUE < 128 ∧
  d.RFM69_FIFO ≠ d.RFM69_OPMODE ∧ d.RFM69_RSSICONFIG ≠ d.RFM69_OPMODE ∧
  d.RFM69_OPMODE ≠ 0x4E

instance regular_map_decidable (d : Defs) : Decidable (regular_map d) :=
  inferInstanceAs (Decidable (_ ∧ _))

/-- The bus after the first step of `rfm69_temperature`, the read that saves
the operating mode. -/
def temp_saved (bus : Bus σ) (d : Defs) (s : Dev σ) : Dev σ :=
  (rfm69_register_read bus d.RFM69_OPMODE s).2

/-- The bus after the second step of `rfm69_temperature`, the call
`rfm69_mode(RFM69_OPMODE_Mode_STDBY)`. -/
def temp_standby (bus : Bus σ) (d : Defs) (err : ErrCodes) (s : Dev σ) : Dev σ :=
  (rfm69_mode bus d err d.RFM69_OPMODE_Mode_STDBY (temp_saved bus d s)).2

/-- The number of byte transfers recorded in a trace. -/
def transfers (t : List BusEvent) : Nat :=
  (t.filter (fun e => match e with
    | BusEvent.transfer _ _ => true
    | _ => false)).length

/-- The buffer `buf` with the bytes `bs` stored from index `i` on. -/
def store (buf : Nat → Nat) : Nat → List Nat → Nat → Nat
  | _, [] => buf
  | i, b :: bs => store (Function.update buf i b) (i + 1) bs

/-- The bus right after the `RFM69_OPMODE` write of `rfm69_mode`, that is,
where its bounded wait on `RFM69_IRQFLAGS1` starts. -/
def mode_written (bus : Bus σ) (d : Defs) (mode : Nat) (s : Dev σ) : Dev σ :=
  rfm69_register_write bus d.RFM69_OPMODE
    (opmode_update d mode (rfm69_register_read bus d.RFM69_OPMODE s).1)
    (rfm69_register_read bus d.RFM69_OPMODE s).2

/-- Status read number `k` (from 0) after the `RFM69_OPMODE` write of
`rfm69_mode` shows the ModeReady bit clear. -/
def ready_clear (bus : Bus σ) (d : Defs) (mode : Nat) (s : Dev σ) (k : Nat) : Prop :=
  nth_read bus d.RFM69_IRQFLAGS1 k (mode_written bus d mode s)
    &&& (d.RFM69_IRQFLAGS1_ModeReady % 256) = 0

instance ready_clear_decidable (bus : Bus σ) (d : Defs) (mode : Nat) (s : Dev σ) (k : Nat) :
    Decidable (ready_clear bus d mode s k) :=
  inferInstanceAs (Decidable (_ = 0))

end Driver

/-! ## Concrete parameters and bus machines used as inputs -/

/-- The register map of the RFM69 / SX1231 data sheet. -/
def datasheet : Defs where
  RFM69_FIFO := 0x00
  RFM69_OPMODE := 0x01
  RFM69_OPMODE_Mode_MASK := 0x1C
  RFM69_OPMODE_Mode_VALUE := fun x => x <<< 2
  RFM69_OPMODE_Mode_STDBY := 1
  RFM69_OPMODE_Mode_TX := 3
  RFM69_IRQFLAGS1 := 0x27
  RFM69_IRQFLAGS1_ModeReady := 0x80
  RFM69_IRQFLAGS2 := 0x28
  RFM69_IRQFLAGS2_PayloadReady_MASK := 0x04
  RFM69_IRQFLAGS2_PacketSent := 0x08
  RFM69_RSSICONFIG := 0x23
  RFM69_RSSICONFIG_RssiStart := 0x01
  RFM69_RSSICONFIG_RssiDone := 0x02
  RFM69_RSSIVALUE := 0x24

/-- A sample assignment of result codes: `-2` for a frame that is too long is
the value the comment above `rfm69_frame_rx` documents, the others are
distinct sample values, negative for the errors. -/
def sampleErr : ErrCodes where
  E_OK := 0
  E_TIMEOUT := -3
  E_SPI := -4
  E_PKT_TOO_LONG := -2

/-- A bus on which every transfer returns the same byte `v` (for instance a
data-in line that is tied to a fixed level). -/
def stuckBus (v : Nat) : Bus Unit where
  nss_assert := fun u => u
  nss_deassert := fun u => u
  transfer_byte := fun u _ => (v, u)
  delay_ms := fun u _ => u

/-- A bus that answers the successive transfers with the successive bytes of
a list, and with `0` once the list is used up. -/
def scriptBus : Bus (List Nat) where
  nss_assert := fun l => l
  nss_deassert := fun l => l
  transfer_byte := fun l _ => (l.headD 0, l.tail)
  delay_ms := fun l _ => l

/-- Where a chip-select transaction of the register chip stands. -/
inductive Phase where
  | idle : Phase
  | selected : Phase
  | addressed (addr : Nat) (write : Bool) : Phase
  | done : Phase
  deriving DecidableEq

/-- State of the register chip: the register file and the transaction phase. -/
structure RegChip where
  regs : Nat → Nat
  phase : Phase

/-- A chip model that stores what is written.  Within a chip-select
transaction the first byte is the command (bit 7 is the write flag, the low 7
bits are the register address) and the second byte is the value: a write
stores it in the addressed register, a read returns the addressed register.
Further bytes of the same transaction are ignored. -/
def regChip : Bus RegChip where
  nss_assert := fun c => { c with phase := Phase.selected }
  nss_deassert := fun c => { c with phase := Phase.idle }
  transfer_byte := fun c out =>
    match c.phase with
    | Phase.idle => (0, c)
    | Phase.selected => (0, { c with phase := Phase.addressed (out % 128) (out.testBit 7) })
    | Phase.addressed a true => (0, { regs := Function.update c.regs a out, phase := Phase.done })
    | Phase.addressed a false => (c.regs a, { c with phase := Phase.done })
    | Phase.done => (0, c)
  delay_ms := fun c _ => c

end RFM69

namespace RFM69

section Lemmas

variable {σ : Type}

/-! ## Register access on an arbitrary bus -/

theorem register_read_trace (bus : Bus σ) (a : Nat) (s : Dev σ) :
    (rfm69_register_read bus a s).2.trace =
      s.trace ++ [BusEvent.nssAssert,
        BusEvent.transfer (a % 256)
          ((bus.transfer_byte (bus.nss_assert s.chip) (a % 256)).1 % 256),
        BusEvent.transfer 0xff (rfm69_register_read bus a s).1,
        BusEvent.nssDeassert] := by
  simp [rfm69_register_read, rfm69_nss_assert, rfm69_nss_deassert, rfm69_spi_transfer_byte]

theorem register_read_trace_length (bus : Bus σ) (a : Nat) (s : Dev σ) :
    (rfm69_register_read bus a s).2.trace.length = s.trace.length + 4 := by
  rw [register_read_trace]; simp

theorem register_read_lt (bus : Bus σ) (a : Nat) (s : Dev σ) :
    (rfm69_register_read bus a s).1 < 256 := by
  simp only [rfm69_register_read, rfm69_spi_transfer_byte]
  exact Nat.mod_lt _ (by decide)

theorem after_reads_trace_length (bus : Bus σ) (a : Nat) :
    ∀ (k : Nat) (s : Dev σ),
      (after_reads bus a k s).trace.length = s.trace.length + 4 * k := by
  intro k
  induction k with
  | zero => intro s; simp [after_reads]
  | succ k ih =>
    intro s
    rw [after_reads, ih, register_read_trace_length]
    omega

/-! ## The bounded wait -/

theorem wait_loop_timeout (bus : Bus σ) (err : ErrCodes) (reg mask : Nat) :
    ∀ (n : Nat) (s : Dev σ), 0 < n →
      (∀ k, k < n → nth_read bus reg k s &&& (mask % 256) = 0) →
      rfm69_wait_for_bit_high_loop bus err reg mask n s =
        (err.E_TIMEOUT, after_reads bus reg n s) := by
  intro n
  induction n with
  | zero => intro s h; omega
  | succ m ih =>
    intro s _ hclear
    have h0 : (rfm69_register_read bus reg s).1 &&& (mask % 256) = 0 :=
      hclear 0 (Nat.succ_pos m)
    rw [rfm69_wait_for_bit_high_loop]
    simp only [h0, if_true]
    by_cases hm : m = 0
    · subst hm; simp [after_reads]
    · simp only [hm, if_false]
      rw [ih _ (Nat.pos_of_ne_zero hm)]
      · rfl
      · intro k hk
        exact hclear (k + 1) (Nat.succ_lt_succ hk)

theorem wait_loop_ok (bus : Bus σ) (err : ErrCodes) (reg mask : Nat) :
    ∀ (n : Nat) (s : Dev σ) (k : Nat), k < n →
      (∀ j, j < k → nth_read bus reg j s &&& (mask % 256) = 0) →
      nth_read bus reg k s &&& (mask % 256) ≠ 0 →
      rfm69_wait_for_bit_high_loop bus err reg mask n s =
        (err.E_OK, after_reads bus reg (k + 1) s) := by
  intro n
  induction n with
  | zero => intro s k h; omega
  | succ m ih =>
    intro s k hk hclear hset
    rw [rfm69_wait_for_bit_high_loop]
    cases k with
    | zero =>
      have h0 : ¬ ((rfm69_register_read bus reg s).1 &&& (mask % 256) = 0) := hset
      simp [h0, after_reads]
    | succ j =>
      have h0 : (rfm69_register_read bus reg s).1 &&& (mask % 256) = 0 :=
        hclear 0 (Nat.succ_pos j)
      have hm : m ≠ 0 := by omega
      simp only [h0, if_true, hm, if_false]
      rw [ih _ j (by omega)]
      · rfl
      · intro i hi
        exact hclear (i + 1) (Nat.succ_lt_succ hi)
      · exact hset

/-- The bounded wait returns `E_TIMEOUT` after exactly `50000` reads when the
masked bit is clear in each of them. -/
theorem wait_for_bit_high_timeout (bus : Bus σ) (err : ErrCodes) (reg mask : Nat) (s : Dev σ)
    (h : ∀ k, k < 50000 → nth_read bus reg k s &&& (mask % 256) = 0) :
    rfm69_wait_for_bit_high bus err reg mask s =
      (err.E_TIMEOUT, after_reads bus reg 50000 s) :=
  wait_loop_timeout bus err reg mask 50000 s (by decide) h

/-- The bounded wait returns `E_OK` right after the first read that shows the
masked bit, when that read is among the first `50000`. -/
theorem wait_for_bit_high_ok (bus : Bus σ) (err : ErrCodes) (reg mask : Nat) (s : Dev σ)
    (h : ¬ ∀ k, k < 50000 → nth_read bus reg k s &&& (mask % 256) = 0) :
    ∃ k, k < 50000 ∧
      rfm69_wait_for_bit_high bus err reg mask s =
        (err.E_OK, after_reads bus reg (k + 1) s) := by
  classical
  have hex : ∃ k, k < 50000 ∧ nth_read bus reg k s &&& (mask % 256) ≠ 0 := by
    by_contra hcon
    apply h
    intro k hk
    by_contra hne
    exact hcon ⟨k, hk, hne⟩
  refine ⟨Nat.find hex, (Nat.find_spec hex).1, ?_⟩
  apply wait_loop_ok bus err reg mask 50000 s (Nat.find hex) (Nat.find_spec hex).1
  · intro j hj
    by_contra hne
    exact Nat.find_min hex hj ⟨lt_trans hj (Nat.find_spec hex).1, hne⟩
  · exact (Nat.find_spec hex).2

end Lemmas

end RFM69

namespace RFM69

section ModeController

variable {σ : Type}

theorem stuckBus_read (v a : Nat) (s : Dev Unit) :
    (rfm69_register_read (stuckBus v) a s).1 = v % 256 := by
  simp [rfm69_register_read, rfm69_spi_transfer_byte, stuckBus]

theorem stuckBus_nth_read (v a k : Nat) (s : Dev Unit) :
    nth_read (stuckBus v) a k s = v % 256 := by
  simp [nth_read, stuckBus_read]

/-- C1. For every target mode and every bus, with the status reads counted from
the `RFM69_OPMODE` write: if the ModeReady bit is clear in each of the first
50000 status reads, `rfm69_mode` returns `E_TIMEOUT` and has then performed
exactly 50000 status reads; otherwise it returns `E_OK`; hence (the two codes
being different) it returns `E_TIMEOUT` exactly when the bit is clear in each
of the first 50000 status reads; and two runs whose first 50000 status reads
agree on the bit return the same code. -/
theorem rfm69_mode_timeout_iff (bus : Bus σ) (d : Defs) (err : ErrCodes) (mode : Nat)
    (s : Dev σ) :
    ((∀ k, k < 50000 → ready_clear bus d mode s k) →
        rfm69_mode bus d err mode s =
          (err.E_TIMEOUT, after_reads bus d.RFM69_IRQFLAGS1 50000 (mode_written bus d mode s)) ∧
        (rfm69_mode bus d err mode s).2.trace.length =
          (mode_written bus d mode s).trace.length + 4 * 50000) ∧
    ((¬ ∀ k, k < 50000 → ready_clear bus d mode s k) →
        (rfm69_mode bus d err mode s).1 = err.E_OK) ∧
    (err.E_TIMEOUT ≠ err.E_OK →
        ((rfm69_mode bus d err mode s).1 = err.E_TIMEOUT ↔
          ∀ k, k < 50000 → ready_clear bus d mode s k)) ∧
    (∀ (τ : Type) (bus2 : Bus τ) (t : Dev τ),
        (∀ k, k < 50000 → (ready_clear bus d mode s k ↔ ready_clear bus2 d mode t k)) →
        (rfm69_mode bus d err mode s).1 = (rfm69_mode bus2 d err mode t).1) := by
  have hT : ∀ (τ : Type) (b : Bus τ) (t : Dev τ),
      (∀ k, k < 50000 → ready_clear b d mode t k) →
      rfm69_mode b d err mode t =
        (err.E_TIMEOUT, after_reads b d.RFM69_IRQFLAGS1 50000 (mode_written b d mode t)) := by
    intro τ b t h
    exact wait_for_bit_high_timeout b err _ _ (mode_written b d mode t) h
  have hO : ∀ (τ : Type) (b : Bus τ) (t : Dev τ),
      (¬ ∀ k, k < 50000 → ready_clear b d mode t k) →
      (rfm69_mode b d err mode t).1 = err.E_OK := by
    intro τ b t h
    obtain ⟨k, _, hk⟩ := wait_for_bit_high_ok b err _ _ (mode_written b d mode t) h
    have : rfm69_mode b d err mode t =
        (err.E_OK, after_reads b d.RFM69_IRQFLAGS1 (k + 1) (mode_written b d mode t)) := hk
    rw [this]
  refine ⟨?_, hO σ bus s, ?_, ?_⟩
  · intro h
    have hlen := after_reads_trace_length bus d.RFM69_IRQFLAGS1 50000 (mode_written bus d mode s)
    exact ⟨hT σ bus s h, (congrArg (fun r => r.2.trace.length) (hT σ bus s h)).trans hlen⟩
  · intro hne
    constructor
    · intro hret
      by_contra hcon
      exact hne (hret.symm.trans (hO σ bus s hcon))
    · intro h
      rw [hT σ bus s h]
  · intro τ bus2 t hagree
    by_cases h : ∀ k, k < 50000 → ready_clear bus d mode s k
    · have h2 : ∀ k, k < 50000 → ready_clear bus2 d mode t k :=
        fun k hk => (hagree k hk).1 (h k hk)
      rw [hT σ bus s h, hT τ bus2 t h2]
    · have h2 : ¬ ∀ k, k < 50000 → ready_clear bus2 d mode t k :=
        fun hh => h (fun k hk => (hagree k hk).2 (hh k hk))
      rw [hO σ bus s h, hO τ bus2 t h2]

/-- Witness for C1: on a bus whose data-in line is stuck low, `rfm69_mode`
for STANDBY returns `E_TIMEOUT` after 2 + 50000 register transactions; on a bus
stuck high it returns `E_OK`. -/
theorem rfm69_mode_timeout_iff_witness :
    ((rfm69_mode (stuckBus 0) datasheet sampleErr 1 ⟨(), []⟩).1 = -3 ∧
      (rfm69_mode (stuckBus 0) datasheet sampleErr 1 ⟨(), []⟩).2.trace.length = 200008) ∧
    (rfm69_mode (stuckBus 255) datasheet sampleErr 1 ⟨(), []⟩).1 = 0 := by
  have hlow : ∀ k, k < 50000 → ready_clear (stuckBus 0) datasheet 1 ⟨(), []⟩ k := by
    intro k _
    simp [ready_clear, stuckBus_nth_read]
  have hhigh : ¬ ∀ k, k < 50000 → ready_clear (stuckBus 255) datasheet 1 ⟨(), []⟩ k := by
    intro h
    have h0 := h 0 (by decide)
    simp [ready_clear, stuckBus_nth_read, datasheet] at h0
  have h1 := (rfm69_mode_timeout_iff (stuckBus 0) datasheet sampleErr 1 ⟨(), []⟩).1 hlow
  have h2 := (rfm69_mode_timeout_iff (stuckBus 255) datasheet sampleErr 1 ⟨(), []⟩).2.1 hhigh
  refine ⟨⟨(congrArg Prod.fst h1.1).trans rfl, h1.2.trans ?_⟩, h2⟩
  simp [mode_written, rfm69_register_write, rfm69_register_read, rfm69_nss_assert,
    rfm69_nss_deassert, rfm69_spi_transfer_byte]

end ModeController

end RFM69

namespace RFM69

section FrameReceive

variable {σ : Type}

/-! ## Buffers and bursts of payload bytes -/

theorem store_of_lt (bs : List Nat) :
    ∀ (buf : Nat → Nat) (i j : Nat), j < i → store buf i bs j = buf j := by
  induction bs with
  | nil => intro buf i j _; rfl
  | cons b bs ih =>
    intro buf i j hj
    rw [store, ih _ _ _ (Nat.lt_succ_of_lt hj)]
    exact Function.update_noteq (Nat.ne_of_lt hj) _ _

theorem store_of_ge (bs : List Nat) :
    ∀ (buf : Nat → Nat) (i j : Nat), i + bs.length ≤ j → store buf i bs j = buf j := by
  induction bs with
  | nil => intro buf i j _; rfl
  | cons b bs ih =>
    intro buf i j hj
    simp only [List.length_cons] at hj
    rw [store, ih _ _ _ (by omega)]
    exact Function.update_noteq (by omega) _ _

theorem store_get (bs : List Nat) :
    ∀ (buf : Nat → Nat) (i k : Nat), k < bs.length →
      store buf i bs (i + k) = bs.getD k 0 := by
  induction bs with
  | nil => intro buf i k hk; simp at hk
  | cons b bs ih =>
    intro buf i k hk
    rw [store]
    cases k with
    | zero =>
      show store (Function.update buf i b) (i + 1) bs i = (b :: bs).getD 0 0
      rw [store_of_lt bs _ (i + 1) i (Nat.lt_succ_self i)]
      simp
    | succ k =>
      simp only [List.length_cons] at hk
      have h := ih (Function.update buf i b) (i + 1) k (by omega)
      rw [show i + (k + 1) = i + 1 + k by omega, h]
      simp

theorem read_bytes_length (bus : Bus σ) :
    ∀ (n : Nat) (s : Dev σ), (read_bytes bus n s).1.length = n := by
  intro n
  induction n with
  | zero => intro s; rfl
  | succ n ih => intro s; simp [read_bytes, ih]

theorem read_bytes_trace (bus : Bus σ) :
    ∀ (n : Nat) (s : Dev σ),
      (read_bytes bus n s).2.trace =
        s.trace ++ (read_bytes bus n s).1.map (fun b => BusEvent.transfer 0 b) := by
  intro n
  induction n with
  | zero => intro s; simp [read_bytes]
  | succ n ih =>
    intro s
    simp only [read_bytes, List.map_cons]
    rw [ih]
    simp [rfm69_spi_transfer_byte]

theorem transfers_append (t u : List BusEvent) :
    transfers (t ++ u) = transfers t + transfers u := by
  simp [transfers, List.filter_append]

theorem transfers_map_transfer (bs : List Nat) :
    transfers (bs.map (fun b => BusEvent.transfer 0 b)) = bs.length := by
  induction bs with
  | nil => rfl
  | cons b bs ih =>
    simp only [List.map_cons, List.length_cons]
    rw [← ih]
    simp [transfers]

theorem rx_header_trace (bus : Bus σ) (d : Defs) (s : Dev σ) :
    ∃ x, (rx_header bus d s).2.trace =
      s.trace ++ [BusEvent.nssAssert, BusEvent.transfer (d.RFM69_FIFO % 256) x,
        BusEvent.transfer 0 (rx_header bus d s).1] := by
  refine ⟨(bus.transfer_byte (bus.nss_assert s.chip) (d.RFM69_FIFO % 256)).1 % 256, ?_⟩
  simp [rx_header, rfm69_nss_assert, rfm69_spi_transfer_byte]

/-! ## The payload loop -/

/-- When `maxlen` is none of the indices `i, ..., i + n - 1`, the loop runs all
`n` rounds. -/
theorem frame_rx_loop_all (bus : Bus σ) (maxlen : Int) :
    ∀ (n i : Nat) (buf : Nat → Nat) (s : Dev σ),
      (∀ j : Nat, i ≤ j → j < i + n → (j : Int) ≠ maxlen) →
      rfm69_frame_rx_loop bus maxlen n i buf s =
        { too_long := false, buf := store buf i (read_bytes bus n s).1,
          dev := (read_bytes bus n s).2 } := by
  intro n
  induction n with
  | zero => intro i buf s _; rfl
  | succ n ih =>
    intro i buf s h
    have hi : ¬ ((i : Int) = maxlen) := h i (Nat.le_refl i) (by omega)
    rw [rfm69_frame_rx_loop]
    simp only [hi, if_false]
    rw [ih (i + 1) _ _ (fun j h1 h2 => h j (by omega) (by omega))]
    rfl

/-- When `maxlen` is the index `i + k` with `k < n`, the loop runs `k` rounds
and then leaves through the `return`. -/
theorem frame_rx_loop_stop (bus : Bus σ) (maxlen : Int) :
    ∀ (k n i : Nat) (buf : Nat → Nat) (s : Dev σ), k < n → maxlen = ((i + k : Nat) : Int) →
      rfm69_frame_rx_loop bus maxlen n i buf s =
        { too_long := true, buf := store buf i (read_bytes bus k s).1,
          dev := (read_bytes bus k s).2 } := by
  intro k
  induction k with
  | zero =>
    intro n i buf s hk hm
    obtain ⟨m, rfl⟩ : ∃ m, n = m + 1 := ⟨n - 1, by omega⟩
    rw [rfm69_frame_rx_loop]
    have hi : (i : Int) = maxlen := by rw [hm]; simp
    simp only [hi, if_true]
    rfl
  | succ k ih =>
    intro n i buf s hk hm
    obtain ⟨m, rfl⟩ : ∃ m, n = m + 1 := ⟨n - 1, by omega⟩
    rw [rfm69_frame_rx_loop]
    have hi : ¬ ((i : Int) = maxlen) := by rw [hm]; omega
    simp only [hi, if_false]
    rw [ih m (i + 1) _ _ (by omega) (by rw [hm]; congr 1; omega)]
    rfl

/-- The loop never stores at an index `≥ maxlen` once `i ≤ maxlen`. -/
theorem frame_rx_loop_frame (bus : Bus σ) (maxlen : Int) :
    ∀ (n i : Nat) (buf : Nat → Nat) (s : Dev σ), (i : Int) ≤ maxlen →
      ∀ j : Nat, maxlen ≤ (j : Int) → (rfm69_frame_rx_loop bus maxlen n i buf s).buf j = buf j := by
  intro n
  induction n with
  | zero => intro i buf s _ j _; rfl
  | succ n ih =>
    intro i buf s hi j hj
    rw [rfm69_frame_rx_loop]
    by_cases h : (i : Int) = maxlen
    · simp only [h, if_true]
    · simp only [h, if_false]
      rw [ih (i + 1) _ _ (by omega) j hj]
      exact Function.update_noteq (by omega) _ _

end FrameReceive

end RFM69

namespace RFM69

section FrameReceiveResults

variable {σ : Type}

theorem clamp_eq_min (l : Nat) : (if l > 66 then 66 else l) = min l 66 := by
  split <;> omega

/-- The bus-fault path of `rfm69_frame_rx`. -/
theorem frame_rx_fault (bus : Bus σ) (d : Defs) (err : ErrCodes) (buf : Nat → Nat)
    (maxlen : Int) (rssi : Option Nat) (s : Dev σ) (h : (rx_header bus d s).1 = 0xff) :
    rfm69_frame_rx bus d err buf maxlen rssi s =
      { ret := err.E_SPI, buf := buf, rssi := rssi, dev := (rx_header bus d s).2 } := by
  have h1 : (rfm69_spi_transfer_byte bus 0
      (rfm69_spi_transfer_byte bus d.RFM69_FIFO (rfm69_nss_assert bus s)).2).1 = 0xff := h
  simp only [rfm69_frame_rx, h1, if_true]
  rfl

/-- The frame-too-long path of `rfm69_frame_rx`: `maxlen` is an index `k` below
the clamped frame length. -/
theorem frame_rx_stop (bus : Bus σ) (d : Defs) (err : ErrCodes) (buf : Nat → Nat)
    (maxlen : Int) (rssi : Option Nat) (s : Dev σ) (k : Nat)
    (h : (rx_header bus d s).1 ≠ 0xff) (hk : k < min (rx_header bus d s).1 66)
    (hm : maxlen = (k : Int)) :
    rfm69_frame_rx bus d err buf maxlen rssi s =
      { ret := err.E_PKT_TOO_LONG,
        buf := store buf 0 (read_bytes bus k (rx_header bus d s).2).1,
        rssi := rssi,
        dev := (read_bytes bus k (rx_header bus d s).2).2 } := by
  have h1 : ¬ ((rfm69_spi_transfer_byte bus 0
      (rfm69_spi_transfer_byte bus d.RFM69_FIFO (rfm69_nss_assert bus s)).2).1 = 0xff) := h
  have hl := frame_rx_loop_stop bus maxlen k (min (rx_header bus d s).1 66) 0 buf
    (rx_header bus d s).2 hk (by rw [hm, Nat.zero_add])
  simp only [rfm69_frame_rx, h1, if_false, clamp_eq_min]
  have hl2 : rfm69_frame_rx_loop bus maxlen
      (min (rfm69_spi_transfer_byte bus 0
        (rfm69_spi_transfer_byte bus d.RFM69_FIFO (rfm69_nss_assert bus s)).2).1 66) 0 buf
      (rfm69_spi_transfer_byte bus 0
        (rfm69_spi_transfer_byte bus d.RFM69_FIFO (rfm69_nss_assert bus s)).2).2 = _ := hl
  rw [hl2]
  rfl

/-- The success path of `rfm69_frame_rx`: `maxlen` is none of the indices below
the clamped frame length. -/
theorem frame_rx_success (bus : Bus σ) (d : Defs) (err : ErrCodes) (buf : Nat → Nat)
    (maxlen : Int) (rssi : Option Nat) (s : Dev σ)
    (h : (rx_header bus d s).1 ≠ 0xff)
    (hm : ∀ j : Nat, j < min (rx_header bus d s).1 66 → (j : Int) ≠ maxlen) :
    rfm69_frame_rx bus d err buf maxlen rssi s =
      { ret := ((min (rx_header bus d s).1 66 : Nat) : Int),
        buf := store buf 0 (read_bytes bus (min (rx_header bus d s).1 66) (rx_header bus d s).2).1,
        rssi := (rx_rssi bus d err rssi (rfm69_nss_deassert bus
          (read_bytes bus (min (rx_header bus d s).1 66) (rx_header bus d s).2).2)).1,
        dev := (rx_rssi bus d err rssi (rfm69_nss_deassert bus
          (read_bytes bus (min (rx_header bus d s).1 66) (rx_header bus d s).2).2)).2 } := by
  have h1 : ¬ ((rfm69_spi_transfer_byte bus 0
      (rfm69_spi_transfer_byte bus d.RFM69_FIFO (rfm69_nss_assert bus s)).2).1 = 0xff) := h
  have hl := frame_rx_loop_all bus maxlen (min (rx_header bus d s).1 66) 0 buf
    (rx_header bus d s).2 (fun j _ h2 => hm j (by omega))
  simp only [rfm69_frame_rx, h1, if_false, clamp_eq_min]
  have hl2 : rfm69_frame_rx_loop bus maxlen
      (min (rfm69_spi_transfer_byte bus 0
        (rfm69_spi_transfer_byte bus d.RFM69_FIFO (rfm69_nss_assert bus s)).2).1 66) 0 buf
      (rfm69_spi_transfer_byte bus 0
        (rfm69_spi_transfer_byte bus d.RFM69_FIFO (rfm69_nss_assert bus s)).2).2 = _ := hl
  rw [hl2]
  cases rssi <;> rfl

end FrameReceiveResults

end RFM69

namespace RFM69

section FrameReceiveClaims

variable {σ : Type}

theorem payload_length (bus : Bus σ) (d : Defs) (s : Dev σ) (n : Nat) :
    (payload bus d s n).length = n :=
  read_bytes_length bus n _

theorem after_payload_trace (bus : Bus σ) (d : Defs) (s : Dev σ) (n : Nat) :
    ∃ x, (after_payload bus d s n).trace =
      s.trace ++ [BusEvent.nssAssert, BusEvent.transfer (d.RFM69_FIFO % 256) x,
        BusEvent.transfer 0 (rx_header bus d s).1]
        ++ (payload bus d s n).map (fun b => BusEvent.transfer 0 b) := by
  obtain ⟨x, hx⟩ := rx_header_trace bus d s
  refine ⟨x, ?_⟩
  rw [after_payload, read_bytes_trace, hx]
  rfl

theorem after_payload_transfers (bus : Bus σ) (d : Defs) (s : Dev σ) (n : Nat) :
    transfers (after_payload bus d s n).trace = transfers s.trace + 2 + n := by
  obtain ⟨x, hx⟩ := after_payload_trace bus d s n
  rw [hx, transfers_append, transfers_append, transfers_map_transfer, payload_length]
  rfl

/-- With a length byte other than `0xFF`, `rfm69_frame_rx` is its payload loop
run with the bound `min L 66`. -/
theorem frame_rx_loop_bound (bus : Bus σ) (d : Defs) (err : ErrCodes) (buf : Nat → Nat)
    (maxlen : Int) (rssi : Option Nat) (s : Dev σ) (h : (rx_header bus d s).1 ≠ 0xff) :
    (rfm69_frame_rx bus d err buf maxlen rssi s).buf =
      (rfm69_frame_rx_loop bus maxlen (min (rx_header bus d s).1 66) 0 buf
        (rx_header bus d s).2).buf ∧
    (rfm69_frame_rx bus d err buf maxlen rssi s).ret =
      if (rfm69_frame_rx_loop bus maxlen (min (rx_header bus d s).1 66) 0 buf
        (rx_header bus d s).2).too_long then err.E_PKT_TOO_LONG
      else ((min (rx_header bus d s).1 66 : Nat) : Int) := by
  have h1 : ¬ ((rfm69_spi_transfer_byte bus 0
      (rfm69_spi_transfer_byte bus d.RFM69_FIFO (rfm69_nss_assert bus s)).2).1 = 0xff) := h
  simp only [rfm69_frame_rx, h1, if_false, clamp_eq_min, rx_header]
  split
  · simp
  · cases rssi <;> simp

/-- C2. When the length byte (the answer to the second transfer) is `0xFF`,
`rfm69_frame_rx` returns `E_SPI`, leaves the buffer and the `rssi` cell as they
were, and its bus activity is exactly chip-select, the FIFO address byte and
the length-byte transfer: no payload byte is read. -/
theorem rfm69_frame_rx_bus_fault (bus : Bus σ) (d : Defs) (err : ErrCodes)
    (buf : Nat → Nat) (maxlen : Int) (rssi : Option Nat) (s : Dev σ)
    (h : (rx_header bus d s).1 = 0xff) :
    (rfm69_frame_rx bus d err buf maxlen rssi s).ret = err.E_SPI ∧
    (rfm69_frame_rx bus d err buf maxlen rssi s).buf = buf ∧
    (rfm69_frame_rx bus d err buf maxlen rssi s).rssi = rssi ∧
    (∃ x, (rfm69_frame_rx bus d err buf maxlen rssi s).dev.trace =
      s.trace ++ [BusEvent.nssAssert, BusEvent.transfer (d.RFM69_FIFO % 256) x,
        BusEvent.transfer 0 0xff]) ∧
    transfers (rfm69_frame_rx bus d err buf maxlen rssi s).dev.trace =
      transfers s.trace + 2 := by
  rw [frame_rx_fault bus d err buf maxlen rssi s h]
  obtain ⟨x, hx⟩ := rx_header_trace bus d s
  rw [h] at hx
  refine ⟨rfl, rfl, rfl, ⟨x, hx⟩, ?_⟩
  show transfers (rx_header bus d s).2.trace = _
  rw [hx, transfers_append]
  rfl

/-- Witness for C2: on a bus that answers every transfer with `0xFF`,
`receive(buf, 66)` returns `E_SPI` after two transfers and copies nothing. -/
theorem rfm69_frame_rx_bus_fault_witness :
    (rx_header (stuckBus 255) datasheet ⟨(), []⟩).1 = 0xff ∧
    (rfm69_frame_rx (stuckBus 255) datasheet sampleErr (fun _ => 0) 66 (some 7) ⟨(), []⟩).ret
      = -4 ∧
    (rfm69_frame_rx (stuckBus 255) datasheet sampleErr (fun _ => 0) 66 (some 7) ⟨(), []⟩).buf
      = (fun _ => 0) ∧
    transfers
      (rfm69_frame_rx (stuckBus 255) datasheet sampleErr (fun _ => 0) 66 (some 7)
        ⟨(), []⟩).dev.trace = 2 :=
  have h := rfm69_frame_rx_bus_fault (stuckBus 255) datasheet sampleErr (fun _ => 0) 66
    (some 7) ⟨(), []⟩ (by decide)
  ⟨by decide, h.1, h.2.1, h.2.2.2.2⟩

/-- C3. For `maxlen ≥ 0`, every buffer position at an index `≥ maxlen` holds
after `rfm69_frame_rx` what it held before, whatever the bus returns and
whichever result is returned. -/
theorem rfm69_frame_rx_bounds (bus : Bus σ) (d : Defs) (err : ErrCodes)
    (buf : Nat → Nat) (maxlen : Int) (rssi : Option Nat) (s : Dev σ)
    (h0 : 0 ≤ maxlen) (i : Nat) (hi : maxlen ≤ (i : Int)) :
    (rfm69_frame_rx bus d err buf maxlen rssi s).buf i = buf i := by
  by_cases h : (rx_header bus d s).1 = 0xff
  · rw [frame_rx_fault bus d err buf maxlen rssi s h]
  · rw [(frame_rx_loop_bound bus d err buf maxlen rssi s h).1]
    exact frame_rx_loop_frame bus maxlen _ 0 buf _ (by simpa using h0) i hi

/-- Witness for C3: a frame of declared length 40 received with `maxlen = 10`
leaves `buf[10]` untouched. -/
theorem rfm69_frame_rx_bounds_witness :
    (rfm69_frame_rx scriptBus datasheet sampleErr (fun _ => 0) 10 none
      ⟨0 :: 40 :: List.replicate 40 9, []⟩).buf 10 = 0 :=
  rfm69_frame_rx_bounds scriptBus datasheet sampleErr (fun _ => 0) 10 none
    ⟨0 :: 40 :: List.replicate 40 9, []⟩ (by decide) 10 (by decide)

end FrameReceiveClaims

end RFM69

namespace RFM69

section FrameReceiveLength

variable {σ : Type}

/-- C4. For `maxlen ≥ 0`: when the length byte `L` is not `0xFF` and
`min L 66 > maxlen`, `rfm69_frame_rx` returns `E_PKT_TOO_LONG` after exactly
`maxlen` payload transfers, `buf[i]` is payload byte `i` for `i < maxlen`, and
every other buffer position and the `rssi` cell are unchanged.  Conversely,
when `min L 66 ≤ maxlen` the call returns `E_SPI` (for `L = 0xFF`) or the frame
length `min L 66`, which is not `E_PKT_TOO_LONG` as soon as that code is
negative and differs from `E_SPI`. -/
theorem rfm69_frame_rx_too_long (bus : Bus σ) (d : Defs) (err : ErrCodes)
    (buf : Nat → Nat) (maxlen : Int) (rssi : Option Nat) (s : Dev σ) (h0 : 0 ≤ maxlen) :
    ((rx_header bus d s).1 ≠ 0xff →
      maxlen < ((min (rx_header bus d s).1 66 : Nat) : Int) →
        (rfm69_frame_rx bus d err buf maxlen rssi s).ret = err.E_PKT_TOO_LONG ∧
        (∀ i : Nat, (i : Int) < maxlen →
          (rfm69_frame_rx bus d err buf maxlen rssi s).buf i =
            (payload bus d s maxlen.toNat).getD i 0) ∧
        (∀ i : Nat, maxlen ≤ (i : Int) →
          (rfm69_frame_rx bus d err buf maxlen rssi s).buf i = buf i) ∧
        (rfm69_frame_rx bus d err buf maxlen rssi s).rssi = rssi ∧
        (rfm69_frame_rx bus d err buf maxlen rssi s).dev =
          after_payload bus d s maxlen.toNat ∧
        transfers (rfm69_frame_rx bus d err buf maxlen rssi s).dev.trace =
          transfers s.trace + 2 + maxlen.toNat) ∧
    (((min (rx_header bus d s).1 66 : Nat) : Int) ≤ maxlen →
        ((rfm69_frame_rx bus d err buf maxlen rssi s).ret = err.E_SPI ∨
          (rfm69_frame_rx bus d err buf maxlen rssi s).ret =
            ((min (rx_header bus d s).1 66 : Nat) : Int)) ∧
        (err.E_PKT_TOO_LONG < 0 →
          ((rx_header bus d s).1 = 0xff → err.E_SPI ≠ err.E_PKT_TOO_LONG) →
          (rfm69_frame_rx bus d err buf maxlen rssi s).ret ≠ err.E_PKT_TOO_LONG)) := by
  constructor
  · intro hL hlt
    have hk : maxlen.toNat < min (rx_header bus d s).1 66 := by omega
    have hm : maxlen = ((maxlen.toNat : Nat) : Int) := (Int.toNat_of_nonneg h0).symm
    rw [frame_rx_stop bus d err buf maxlen rssi s maxlen.toNat hL hk hm]
    refine ⟨rfl, ?_, ?_, rfl, rfl, after_payload_transfers bus d s maxlen.toNat⟩
    · intro i hi
      have hlen : i < (payload bus d s maxlen.toNat).length := by
        rw [payload_length]; omega
      have hs := store_get (payload bus d s maxlen.toNat) buf 0 i hlen
      rw [Nat.zero_add] at hs
      exact hs
    · intro i hi
      exact store_of_ge (payload bus d s maxlen.toNat) buf 0 i (by
        rw [payload_length]; omega)
  · intro hle
    by_cases hL : (rx_header bus d s).1 = 0xff
    · rw [frame_rx_fault bus d err buf maxlen rssi s hL]
      exact ⟨Or.inl rfl, fun _ hne => hne hL⟩
    · rw [frame_rx_success bus d err buf maxlen rssi s hL (fun j hj => by omega)]
      refine ⟨Or.inr rfl, fun hneg _ => ?_⟩
      show ((min (rx_header bus d s).1 66 : Nat) : Int) ≠ err.E_PKT_TOO_LONG
      omega

/-- Witness for C4: `receive(buf, 10)` on a bus that declares length 40 returns
`E_PKT_TOO_LONG` after copying exactly 10 bytes; with `maxlen = 40` the same
frame is not too long. -/
theorem rfm69_frame_rx_too_long_witness :
    ((rfm69_frame_rx scriptBus datasheet sampleErr (fun _ => 7) 10 none
        ⟨0 :: 40 :: List.range 40, []⟩).ret = -2 ∧
      (rfm69_frame_rx scriptBus datasheet sampleErr (fun _ => 7) 10 none
        ⟨0 :: 40 :: List.range 40, []⟩).buf 9 = 9 ∧
      (rfm69_frame_rx scriptBus datasheet sampleErr (fun _ => 7) 10 none
        ⟨0 :: 40 :: List.range 40, []⟩).buf 10 = 7 ∧
      transfers (rfm69_frame_rx scriptBus datasheet sampleErr (fun _ => 7) 10 none
        ⟨0 :: 40 :: List.range 40, []⟩).dev.trace = 12) ∧
    (rfm69_frame_rx scriptBus datasheet sampleErr (fun _ => 7) 40 none
        ⟨0 :: 40 :: List.range 40, []⟩).ret ≠ -2 :=
  have h := (rfm69_frame_rx_too_long scriptBus datasheet sampleErr (fun _ => 7) 10 none
    ⟨0 :: 40 :: List.range 40, []⟩ (by decide)).1 (by decide) (by decide)
  have g := ((rfm69_frame_rx_too_long scriptBus datasheet sampleErr (fun _ => 7) 40 none
    ⟨0 :: 40 :: List.range 40, []⟩ (by decide)).2 (by decide)).2 (by decide) (by decide)
  ⟨⟨h.1, (h.2.1 9 (by decide)).trans (by decide), h.2.2.1 10 (by decide), h.2.2.2.2.2⟩, g⟩

end FrameReceiveLength

end RFM69

namespace RFM69

section FrameReceiveClamp

variable {σ : Type}

/-- C5 as stated fails at the length byte `0xFF`: it is greater than 66, yet
with `maxlen = 66` the call does not return 66, performs only the two header
transfers instead of 2 + 66, and copies nothing. -/
theorem rfm69_frame_rx_clamp_counterexample :
    66 < (rx_header (stuckBus 255) datasheet ⟨(), []⟩).1 ∧
    (rfm69_frame_rx (stuckBus 255) datasheet sampleErr (fun _ => 0) 66 none ⟨(), []⟩).ret
      ≠ 66 ∧
    transfers
      (rfm69_frame_rx (stuckBus 255) datasheet sampleErr (fun _ => 0) 66 none
        ⟨(), []⟩).dev.trace = 2 ∧
    (rfm69_frame_rx (stuckBus 255) datasheet sampleErr (fun _ => 0) 66 none ⟨(), []⟩).buf 0
      = 0 := by
  rw [frame_rx_fault (stuckBus 255) datasheet sampleErr (fun _ => 0) 66 none ⟨(), []⟩
    (by decide)]
  exact ⟨by decide, by decide, by decide, rfl⟩

/-- C5 (amended). For a length byte `L` other than `0xFF`: if `L > 66` the
payload loop runs with bound 66, so that with `maxlen ≥ 66` the call returns 66
after exactly 66 payload transfers, `buf[i]` is payload byte `i` for `i < 66`
and the rest of the buffer is unchanged; if `L ≤ 66` the payload loop runs with
bound `L`. -/
theorem rfm69_frame_rx_clamp (bus : Bus σ) (d : Defs) (err : ErrCodes)
    (buf : Nat → Nat) (maxlen : Int) (rssi : Option Nat) (s : Dev σ)
    (hL : (rx_header bus d s).1 ≠ 0xff) :
    (66 < (rx_header bus d s).1 →
      (rfm69_frame_rx bus d err buf maxlen rssi s).buf =
        (rfm69_frame_rx_loop bus maxlen 66 0 buf (rx_header bus d s).2).buf ∧
      (rfm69_frame_rx bus d err buf maxlen rssi s).ret =
        (if (rfm69_frame_rx_loop bus maxlen 66 0 buf (rx_header bus d s).2).too_long
          then err.E_PKT_TOO_LONG else 66) ∧
      (66 ≤ maxlen →
        (rfm69_frame_rx bus d err buf maxlen rssi s).ret = 66 ∧
        (∀ i : Nat, i < 66 →
          (rfm69_frame_rx bus d err buf maxlen rssi s).buf i =
            (payload bus d s 66).getD i 0) ∧
        (∀ i : Nat, 66 ≤ i → (rfm69_frame_rx bus d err buf maxlen rssi s).buf i = buf i) ∧
        (rfm69_frame_rx bus d err buf maxlen rssi s).dev =
          (rx_rssi bus d err rssi (rfm69_nss_deassert bus (after_payload bus d s 66))).2 ∧
        transfers (after_payload bus d s 66).trace = transfers s.trace + 2 + 66)) ∧
    ((rx_header bus d s).1 ≤ 66 →
      (rfm69_frame_rx bus d err buf maxlen rssi s).buf =
        (rfm69_frame_rx_loop bus maxlen (rx_header bus d s).1 0 buf
          (rx_header bus d s).2).buf ∧
      (rfm69_frame_rx bus d err buf maxlen rssi s).ret =
        (if (rfm69_frame_rx_loop bus maxlen (rx_header bus d s).1 0 buf
          (rx_header bus d s).2).too_long
          then err.E_PKT_TOO_LONG else (((rx_header bus d s).1 : Nat) : Int))) := by
  have hb := frame_rx_loop_bound bus d err buf maxlen rssi s hL
  constructor
  · intro hgt
    have hmin : min (rx_header bus d s).1 66 = 66 := by omega
    rw [hmin] at hb
    refine ⟨hb.1, hb.2, ?_⟩
    intro hm
    have hs := frame_rx_success bus d err buf maxlen rssi s hL (fun j hj => by omega)
    rw [hmin] at hs
    rw [hs]
    refine ⟨rfl, ?_, ?_, rfl, after_payload_transfers bus d s 66⟩
    · intro i hi
      have hg := store_get (payload bus d s 66) buf 0 i (by rw [payload_length]; exact hi)
      rw [Nat.zero_add] at hg
      exact hg
    · intro i hi
      exact store_of_ge (payload bus d s 66) buf 0 i (by rw [payload_length]; omega)
  · intro hle
    have hmin : min (rx_header bus d s).1 66 = (rx_header bus d s).1 := by omega
    rw [hmin] at hb
    exact hb

/-- Witness for C5 (amended): a declared length of 200 received with
`maxlen = 66` yields a frame of length 66 whose last byte is payload byte 65,
and a declared length of 3 is used unchanged. -/
theorem rfm69_frame_rx_clamp_witness :
    ((rfm69_frame_rx scriptBus datasheet sampleErr (fun _ => 7) 66 none
        ⟨0 :: 200 :: List.range 100, []⟩).ret = 66 ∧
      (rfm69_frame_rx scriptBus datasheet sampleErr (fun _ => 7) 66 none
        ⟨0 :: 200 :: List.range 100, []⟩).buf 65 = 65 ∧
      (rfm69_frame_rx scriptBus datasheet sampleErr (fun _ => 7) 66 none
        ⟨0 :: 200 :: List.range 100, []⟩).buf 66 = 7) ∧
    (rfm69_frame_rx scriptBus datasheet sampleErr (fun _ => 7) 66 none
        ⟨[0, 3, 11, 22, 33], []⟩).ret = 3 :=
  have h := ((rfm69_frame_rx_clamp scriptBus datasheet sampleErr (fun _ => 7) 66 none
    ⟨0 :: 200 :: List.range 100, []⟩ (by decide)).1 (by decide)).2.2 (by decide)
  have g := ((rfm69_frame_rx_clamp scriptBus datasheet sampleErr (fun _ => 7) 66 none
    ⟨[0, 3, 11, 22, 33], []⟩ (by decide)).2 (by decide)).2
  ⟨⟨h.1, (h.2.1 65 (by decide)).trans (by decide), h.2.2.1 66 (by decide)⟩,
    g.trans (by decide)⟩

/-- C6. For a length byte `L ≤ 66` and `L ≤ maxlen`, `rfm69_frame_rx` returns
`L`; its bus activity up to the release of chip-select is exactly chip-select,
the FIFO address byte, the length byte and `L` payload transfers; `buf[i]` is
payload byte `i` for `i < L`; buffer positions at index `≥ L` are unchanged.
The only activity after that is the optional `rfm69_rssi` call. -/
theorem rfm69_frame_rx_frame (bus : Bus σ) (d : Defs) (err : ErrCodes)
    (buf : Nat → Nat) (maxlen : Int) (rssi : Option Nat) (s : Dev σ)
    (hL : (rx_header bus d s).1 ≤ 66) (hm : (((rx_header bus d s).1 : Nat) : Int) ≤ maxlen) :
    (rfm69_frame_rx bus d err buf maxlen rssi s).ret = (((rx_header bus d s).1 : Nat) : Int) ∧
    (∀ i : Nat, i < (rx_header bus d s).1 →
      (rfm69_frame_rx bus d err buf maxlen rssi s).buf i =
        (payload bus d s (rx_header bus d s).1).getD i 0) ∧
    (∀ i : Nat, (rx_header bus d s).1 ≤ i →
      (rfm69_frame_rx bus d err buf maxlen rssi s).buf i = buf i) ∧
    (rfm69_frame_rx bus d err buf maxlen rssi s).dev =
      (rx_rssi bus d err rssi
        (rfm69_nss_deassert bus (after_payload bus d s (rx_header bus d s).1))).2 ∧
    (rssi = none →
      (rfm69_frame_rx bus d err buf maxlen rssi s).dev =
        rfm69_nss_deassert bus (after_payload bus d s (rx_header bus d s).1)) ∧
    (∃ x, (rfm69_nss_deassert bus (after_payload bus d s (rx_header bus d s).1)).trace =
      s.trace ++ [BusEvent.nssAssert, BusEvent.transfer (d.RFM69_FIFO % 256) x,
        BusEvent.transfer 0 (rx_header bus d s).1]
        ++ (payload bus d s (rx_header bus d s).1).map (fun b => BusEvent.transfer 0 b)
        ++ [BusEvent.nssDeassert]) ∧
    (payload bus d s (rx_header bus d s).1).length = (rx_header bus d s).1 := by
  have hne : (rx_header bus d s).1 ≠ 0xff := by omega
  have hmin : min (rx_header bus d s).1 66 = (rx_header bus d s).1 := by omega
  have hs := frame_rx_success bus d err buf maxlen rssi s hne (fun j hj => by omega)
  rw [hmin] at hs
  rw [hs]
  refine ⟨rfl, ?_, ?_, rfl, ?_, ?_, payload_length bus d s _⟩
  · intro i hi
    have hg := store_get (payload bus d s (rx_header bus d s).1) buf 0 i
      (by rw [payload_length]; exact hi)
    rw [Nat.zero_add] at hg
    exact hg
  · intro i hi
    exact store_of_ge (payload bus d s (rx_header bus d s).1) buf 0 i
      (by rw [payload_length]; omega)
  · intro hr
    subst hr
    rfl
  · obtain ⟨x, hx⟩ := after_payload_trace bus d s (rx_header bus d s).1
    refine ⟨x, ?_⟩
    show (after_payload bus d s (rx_header bus d s).1).trace ++ [BusEvent.nssDeassert] = _
    rw [hx]

/-- Witness for C6: a frame of declared length 3 received with `maxlen = 3`. -/
theorem rfm69_frame_rx_frame_witness :
    (rfm69_frame_rx scriptBus datasheet sampleErr (fun _ => 7) 3 none
      ⟨[0, 3, 11, 22, 33], []⟩).ret = 3 ∧
    (rfm69_frame_rx scriptBus datasheet sampleErr (fun _ => 7) 3 none
      ⟨[0, 3, 11, 22, 33], []⟩).buf 2 = 33 ∧
    (rfm69_frame_rx scriptBus datasheet sampleErr (fun _ => 7) 3 none
      ⟨[0, 3, 11, 22, 33], []⟩).buf 3 = 7 :=
  have h := rfm69_frame_rx_frame scriptBus datasheet sampleErr (fun _ => 7) 3 none
    ⟨[0, 3, 11, 22, 33], []⟩ (by decide) (by decide)
  ⟨h.1.trans (by decide), (h.2.1 2 (by decide)).trans (by decide), h.2.2.1 3 (by decide)⟩

end FrameReceiveClamp

end RFM69

namespace RFM69

section RegisterFile

variable {σ : Type}

/-! ## Bytes on the wire -/

theorem write_command_byte (a : Nat) : ((a % 256) ||| 0x80) % 256 = (a % 256) ||| 0x80 := by
  apply Nat.mod_eq_of_lt
  exact Nat.or_lt_two_pow (n := 8) (Nat.mod_lt _ (by decide)) (by decide)

theorem write_command_addr (a : Nat) (ha : a < 128) : ((a % 256) ||| 0x80) % 128 = a := by
  have h1 : a % 256 = a := Nat.mod_eq_of_lt (by omega)
  rw [h1]
  apply Nat.eq_of_testBit_eq
  intro i
  rw [show (0x80 : Nat) = 2 ^ 7 by norm_num, Nat.testBit_mod_two_pow, Nat.testBit_or,
    Nat.testBit_two_pow]
  by_cases hi : i < 7
  · have : ¬ (7 = i) := by omega
    simp [hi, this]
  · have hlt : a < 2 ^ i := by
      have : 2 ^ 7 ≤ 2 ^ i := Nat.pow_le_pow_right (by decide) (by omega)
      omega
    simp [hi, Nat.testBit_lt_two_pow hlt]

theorem write_command_flag (a : Nat) : (((a % 256) ||| 0x80)).testBit 7 = true := by
  rw [show (0x80 : Nat) = 2 ^ 7 by norm_num, Nat.testBit_or, Nat.testBit_two_pow]
  simp

theorem read_command_flag (a : Nat) (ha : a < 128) : (a % 256).testBit 7 = false := by
  rw [Nat.mod_eq_of_lt (by omega)]
  exact Nat.testBit_lt_two_pow (by norm_num; exact ha)

/-! ## The register chip -/

/-- A register write on the register chip stores the value in the addressed
register and closes the transaction. -/
theorem regChip_write (a v : Nat) (s : Dev RegChip) (ha : a < 128) :
    (rfm69_register_write regChip a v s).chip =
      { regs := Function.update s.chip.regs a (v % 256), phase := Phase.idle } := by
  simp only [rfm69_register_write, rfm69_nss_assert, rfm69_nss_deassert,
    rfm69_spi_transfer_byte, regChip, write_command_byte, write_command_addr a ha,
    write_command_flag]

/-- A register read on the register chip returns the addressed register and
changes no register. -/
theorem regChip_read (a : Nat) (s : Dev RegChip) (ha : a < 128) :
    (rfm69_register_read regChip a s).1 = s.chip.regs a % 256 ∧
    (rfm69_register_read regChip a s).2.chip =
      { regs := s.chip.regs, phase := Phase.idle } := by
  have h1 : a % 256 = a := Nat.mod_eq_of_lt (by omega)
  have h2 : a % 128 = a := Nat.mod_eq_of_lt ha
  have h3 := read_command_flag a ha
  rw [h1] at h3
  simp only [rfm69_register_read, rfm69_nss_assert, rfm69_nss_deassert,
    rfm69_spi_transfer_byte, regChip, h1, h2, h3]
  exact ⟨trivial, trivial⟩

end RegisterFile

end RFM69

namespace RFM69

section ModeRegister

variable {σ : Type}

theorem opmode_update_testBit (d : Defs) (mode r i : Nat) (hi : i < 8) :
    (opmode_update d mode r).testBit i =
      ((r.testBit i && !(d.RFM69_OPMODE_Mode_MASK.testBit i))
        || (d.RFM69_OPMODE_Mode_VALUE (mode % 256)).testBit i) := by
  unfold opmode_update
  rw [show (256 : Nat) = 2 ^ 8 by norm_num, show (255 : Nat) = 2 ^ 8 - 1 by norm_num]
  simp only [Nat.testBit_mod_two_pow, Nat.testBit_or, Nat.testBit_and, Nat.testBit_xor,
    Nat.testBit_two_pow_sub_one, hi, decide_True, Bool.true_and]
  cases r.testBit i <;> cases d.RFM69_OPMODE_Mode_MASK.testBit i <;> rfl

theorem opmode_update_lt (d : Defs) (mode r : Nat) : opmode_update d mode r < 256 :=
  Nat.mod_lt _ (by decide)

theorem register_write_trace (bus : Bus σ) (a v : Nat) (s : Dev σ) :
    ∃ y z, (rfm69_register_write bus a v s).trace =
      s.trace ++ [BusEvent.nssAssert, BusEvent.transfer ((a % 256) ||| 0x80) y,
        BusEvent.transfer (v % 256) z, BusEvent.nssDeassert] := by
  simp only [rfm69_register_write, rfm69_nss_assert, rfm69_nss_deassert,
    rfm69_spi_transfer_byte, write_command_byte, List.append_assoc, List.singleton_append,
    List.cons_append, List.nil_append]
  exact ⟨_, _, rfl⟩

/-- The bounded wait performs between 1 and 50000 register reads and nothing
else. -/
theorem wait_for_bit_high_reads (bus : Bus σ) (err : ErrCodes) (reg mask : Nat) (s : Dev σ) :
    ∃ k, 1 ≤ k ∧ k ≤ 50000 ∧
      (rfm69_wait_for_bit_high bus err reg mask s).2 = after_reads bus reg k s := by
  by_cases h : ∀ k, k < 50000 → nth_read bus reg k s &&& (mask % 256) = 0
  · exact ⟨50000, by decide, le_refl _, by rw [wait_for_bit_high_timeout bus err reg mask s h]⟩
  · obtain ⟨k, hk, he⟩ := wait_for_bit_high_ok bus err reg mask s h
    exact ⟨k + 1, by omega, by omega, by rw [he]⟩

/-- C8. `rfm69_mode` performs one read of `RFM69_OPMODE`, returning `r`, then one
write of `RFM69_OPMODE` with the value
`((r AND NOT MASK) OR VALUE(mode))` truncated to 8 bits, and after that only
status reads.  In the written value every bit inside the mode mask is the
corresponding bit of the target pattern, and, provided the target pattern lies
within the mask, every bit outside the mask is the corresponding bit of `r`. -/
theorem rfm69_mode_read_modify_write (bus : Bus σ) (d : Defs) (err : ErrCodes) (mode : Nat)
    (s : Dev σ) :
    (∃ x : Nat, ∃ y : Nat, ∃ z : Nat, (mode_written bus d mode s).trace =
      s.trace ++ [BusEvent.nssAssert,
        BusEvent.transfer (d.RFM69_OPMODE % 256) x,
        BusEvent.transfer 0xff (rfm69_register_read bus d.RFM69_OPMODE s).1,
        BusEvent.nssDeassert,
        BusEvent.nssAssert,
        BusEvent.transfer ((d.RFM69_OPMODE % 256) ||| 0x80) y,
        BusEvent.transfer
          (opmode_update d mode (rfm69_register_read bus d.RFM69_OPMODE s).1) z,
        BusEvent.nssDeassert]) ∧
    opmode_update d mode (rfm69_register_read bus d.RFM69_OPMODE s).1 =
      (((rfm69_register_read bus d.RFM69_OPMODE s).1
          &&& (255 ^^^ (d.RFM69_OPMODE_Mode_MASK % 256)))
        ||| d.RFM69_OPMODE_Mode_VALUE (mode % 256)) % 256 ∧
    (∃ k, 1 ≤ k ∧ k ≤ 50000 ∧
      (rfm69_mode bus d err mode s).2 =
        after_reads bus d.RFM69_IRQFLAGS1 k (mode_written bus d mode s)) ∧
    (∀ i, i < 8 → d.RFM69_OPMODE_Mode_MASK.testBit i = true →
      (opmode_update d mode (rfm69_register_read bus d.RFM69_OPMODE s).1).testBit i =
        (d.RFM69_OPMODE_Mode_VALUE (mode % 256)).testBit i) ∧
    ((∀ i, i < 8 → (d.RFM69_OPMODE_Mode_VALUE (mode % 256)).testBit i = true →
        d.RFM69_OPMODE_Mode_MASK.testBit i = true) →
      ∀ i, i < 8 → d.RFM69_OPMODE_Mode_MASK.testBit i = false →
        (opmode_update d mode (rfm69_register_read bus d.RFM69_OPMODE s).1).testBit i =
          (rfm69_register_read bus d.RFM69_OPMODE s).1.testBit i) := by
  refine ⟨?_, rfl, ?_, ?_, ?_⟩
  · obtain ⟨y, z, hw⟩ := register_write_trace bus d.RFM69_OPMODE
      (opmode_update d mode (rfm69_register_read bus d.RFM69_OPMODE s).1)
      (rfm69_register_read bus d.RFM69_OPMODE s).2
    refine ⟨(bus.transfer_byte (bus.nss_assert s.chip) (d.RFM69_OPMODE % 256)).1 % 256,
      y, z, ?_⟩
    rw [mode_written, hw, register_read_trace,
      Nat.mod_eq_of_lt (opmode_update_lt d mode _)]
    simp
  · exact wait_for_bit_high_reads bus err _ _ (mode_written bus d mode s)
  · intro i hi hmask
    rw [opmode_update_testBit d mode _ i hi, hmask]
    simp
  · intro hin i hi hmask
    rw [opmode_update_testBit d mode _ i hi, hmask]
    cases hv : (d.RFM69_OPMODE_Mode_VALUE (mode % 256)).testBit i
    · simp
    · have := hin i hi hv
      rw [hmask] at this
      exact absurd this (by decide)

/-- Witness for C8: with the data-sheet mask `0x1C` and the STANDBY pattern
`1 << 2`, an `RFM69_OPMODE` value of `0xF3` read back is rewritten to `0xE7`,
and bits 0, 1, 5, 6, 7 keep their value. -/
theorem rfm69_mode_read_modify_write_witness :
    opmode_update datasheet 1 0xF3 = 0xE7 ∧
    ∀ i, i < 8 → datasheet.RFM69_OPMODE_Mode_MASK.testBit i = false →
      (opmode_update datasheet 1
        (rfm69_register_read (stuckBus 0xF3) datasheet.RFM69_OPMODE ⟨(), []⟩).1).testBit i =
        (rfm69_register_read (stuckBus 0xF3) datasheet.RFM69_OPMODE ⟨(), []⟩).1.testBit i :=
  ⟨by decide,
    (rfm69_mode_read_modify_write (stuckBus 0xF3) datasheet sampleErr 1 ⟨(), []⟩).2.2.2.2
      (by decide)⟩

end ModeRegister

end RFM69

namespace RFM69

section ChipClaims

/-- C7. On the register chip, for every register map with the operating-mode
register at an address in `[0,127]` and every starting content of the chip
(so for every starting mode, and whether or not the STANDBY transition inside
the call times out), the operating-mode register holds after
`rfm69_temperature` the byte it held before. -/
theorem rfm69_temperature_restores_mode (d : Defs) (err : ErrCodes) (s : Dev RegChip)
    (ha : d.RFM69_OPMODE < 128) (hr : s.chip.regs d.RFM69_OPMODE < 256) :
    (rfm69_temperature regChip d err s).2.chip.regs d.RFM69_OPMODE =
      s.chip.regs d.RFM69_OPMODE := by
  have hread := (regChip_read d.RFM69_OPMODE s ha).1
  simp only [rfm69_temperature]
  rw [regChip_write d.RFM69_OPMODE _ _ ha, hread]
  simp only [Function.update_same]
  rw [Nat.mod_mod, Nat.mod_eq_of_lt hr]

/-- Witness for C7: starting in RECEIVE (`RFM69_OPMODE = 0x10`) with a
ModeReady bit that never rises, the operating-mode register is `0x10` again
after the call. -/
theorem rfm69_temperature_restores_mode_witness :
    (rfm69_temperature regChip datasheet sampleErr
      ⟨⟨fun a => if a = 1 then 0x10 else 0, Phase.idle⟩, []⟩).2.chip.regs 1 = 0x10 :=
  rfm69_temperature_restores_mode datasheet sampleErr
    ⟨⟨fun a => if a = 1 then 0x10 else 0, Phase.idle⟩, []⟩ (by decide) (by decide)

/-- C9. On the register chip, for every address `a` in `[0,127]` and every
value `v` in `[0,255]`, `rfm69_register_write(a, v)` followed by
`rfm69_register_read(a)` returns `v`; the write leaves `v` in register `a` and
changes no other register. -/
theorem register_write_read_roundtrip (a v : Nat) (s : Dev RegChip)
    (ha : a < 128) (hv : v < 256) :
    (rfm69_register_read regChip a (rfm69_register_write regChip a v s)).1 = v ∧
    (rfm69_register_write regChip a v s).chip.regs a = v ∧
    ∀ b, b ≠ a → (rfm69_register_write regChip a v s).chip.regs b = s.chip.regs b := by
  have hw := regChip_write a v s ha
  have hmod : v % 256 = v := Nat.mod_eq_of_lt hv
  refine ⟨?_, ?_, ?_⟩
  · rw [(regChip_read a _ ha).1, hw]
    simp only [Function.update_same]
    rw [Nat.mod_mod, hmod]
  · rw [hw]
    simp only [Function.update_same]
    exact hmod
  · intro b hb
    rw [hw]
    exact Function.update_noteq hb _ _

/-- Witness for C9: `write(0x3E, 0x55); read(0x3E)` gives `0x55`. -/
theorem register_write_read_roundtrip_witness :
    (rfm69_register_read regChip 0x3E
      (rfm69_register_write regChip 0x3E 0x55 ⟨⟨fun _ => 0, Phase.idle⟩, []⟩)).1 = 0x55 :=
  (register_write_read_roundtrip 0x3E 0x55 ⟨⟨fun _ => 0, Phase.idle⟩, []⟩
    (by decide) (by decide)).1

/-- C10 fails on both failing paths of `rfm69_test`.  On a bus that answers
every transfer with `0x12`, the call reads `0x12` from `0x3E`, writes `0x55`,
reads back `0x12` and returns `-1`: the last write to `0x3E` carries `0x55`.
On a bus whose first read-back matches and whose second does not, the call
returns `-1` and the last write to `0x3E` carries `0xAA`. -/
theorem rfm69_test_failure_skips_restore :
    ((rfm69_test (stuckBus 0x12) ⟨(), []⟩).1 = -1 ∧
      (rfm69_test (stuckBus 0x12) ⟨(), []⟩).2.trace =
        [BusEvent.nssAssert, BusEvent.transfer 0x3E 0x12, BusEvent.transfer 0xFF 0x12,
          BusEvent.nssDeassert,
          BusEvent.nssAssert, BusEvent.transfer 0xBE 0x12, BusEvent.transfer 0x55 0x12,
          BusEvent.nssDeassert,
          BusEvent.nssAssert, BusEvent.transfer 0x3E 0x12, BusEvent.transfer 0xFF 0x12,
          BusEvent.nssDeassert]) ∧
    ((rfm69_test scriptBus ⟨[0, 0x12, 0, 0, 0, 0x55, 0, 0, 0, 0x2A], []⟩).1 = -1 ∧
      (rfm69_test scriptBus ⟨[0, 0x12, 0, 0, 0, 0x55, 0, 0, 0, 0x2A], []⟩).2.trace =
        [BusEvent.nssAssert, BusEvent.transfer 0x3E 0, BusEvent.transfer 0xFF 0x12,
          BusEvent.nssDeassert,
          BusEvent.nssAssert, BusEvent.transfer 0xBE 0, BusEvent.transfer 0x55 0,
          BusEvent.nssDeassert,
          BusEvent.nssAssert, BusEvent.transfer 0x3E 0, BusEvent.transfer 0xFF 0x55,
          BusEvent.nssDeassert,
          BusEvent.nssAssert, BusEvent.transfer 0xBE 0, BusEvent.transfer 0xAA 0,
          BusEvent.nssDeassert,
          BusEvent.nssAssert, BusEvent.transfer 0x3E 0, BusEvent.transfer 0xFF 0x2A,
          BusEvent.nssDeassert]) := by
  refine ⟨⟨by decide, by decide⟩, ⟨by decide, by decide⟩⟩

end ChipClaims

end RFM69

namespace RFM69

section SelfTest

variable {σ : Type}

theorem regChip_write_then_read (a v : Nat) (s : Dev RegChip) (ha : a < 128) (hv : v < 256) :
    (rfm69_register_read regChip a (rfm69_register_write regChip a v s)).1 = v := by
  rw [(regChip_read a _ ha).1, regChip_write a v s ha]
  simp only [Function.update_same]
  rw [Nat.mod_mod, Nat.mod_eq_of_lt hv]

theorem register_read_trace_ex (bus : Bus σ) (a : Nat) (s : Dev σ) :
    ∃ x, (rfm69_register_read bus a s).2.trace =
      s.trace ++ [BusEvent.nssAssert, BusEvent.transfer (a % 256) x,
        BusEvent.transfer 0xff (rfm69_register_read bus a s).1, BusEvent.nssDeassert] :=
  ⟨_, register_read_trace bus a s⟩

/-- C11. For every bus, `rfm69_test` returns `0` exactly when the read-back
after the write of `0x55` is `0x55` and the read-back after the write of `0xAA`
is `0xAA`, and `-1` otherwise.  When the first read-back differs from `0x55`
the call ends right after it: its bus activity is the backup read, the write
of `0x55` and the read-back, so `0xAA` has not been written.  On the register
chip, which stores what is written, the call returns `0`. -/
theorem rfm69_test_result (bus : Bus σ) (s : Dev σ) :
    ((rfm69_test bus s).1 = 0 ↔
      (test_first_readback bus s).1 = 0x55 ∧ (test_second_readback bus s).1 = 0xAA) ∧
    (¬ ((test_first_readback bus s).1 = 0x55 ∧ (test_second_readback bus s).1 = 0xAA) →
      (rfm69_test bus s).1 = -1) ∧
    ((test_first_readback bus s).1 ≠ 0x55 →
      (rfm69_test bus s).2 = (test_first_readback bus s).2 ∧
      ∃ x0 : Nat, ∃ y0 : Nat, ∃ z0 : Nat, ∃ x1 : Nat, (rfm69_test bus s).2.trace =
        s.trace ++ [BusEvent.nssAssert, BusEvent.transfer 0x3E x0,
          BusEvent.transfer 0xff (rfm69_register_read bus 0x3E s).1, BusEvent.nssDeassert,
          BusEvent.nssAssert, BusEvent.transfer 0xBE y0, BusEvent.transfer 0x55 z0,
          BusEvent.nssDeassert,
          BusEvent.nssAssert, BusEvent.transfer 0x3E x1,
          BusEvent.transfer 0xff (test_first_readback bus s).1, BusEvent.nssDeassert]) ∧
    (∀ c : Dev RegChip, (rfm69_test regChip c).1 = 0) := by
  have hdef : ∀ (τ : Type) (b : Bus τ) (t : Dev τ),
      rfm69_test b t =
        if (test_first_readback b t).1 ≠ 0x55 then (-1, (test_first_readback b t).2)
        else if (test_second_readback b t).1 ≠ 0xAA then (-1, (test_second_readback b t).2)
        else (0, rfm69_register_write b 0x3E (rfm69_register_read b 0x3E t).1
          (test_second_readback b t).2) := fun _ _ _ => rfl
  refine ⟨?_, ?_, ?_, ?_⟩
  · rw [hdef]
    by_cases h1 : (test_first_readback bus s).1 = 0x55
    · by_cases h2 : (test_second_readback bus s).1 = 0xAA
      · simp [h1, h2]
      · simp [h1, h2]
    · simp [h1]
  · intro h
    rw [hdef]
    by_cases h1 : (test_first_readback bus s).1 = 0x55
    · have h2 : ¬ (test_second_readback bus s).1 = 0xAA := fun h2 => h ⟨h1, h2⟩
      simp [h1, h2]
    · simp [h1]
  · intro h1
    have hfin : (rfm69_test bus s).2 = (test_first_readback bus s).2 := by
      rw [hdef]; simp [h1]
    refine ⟨hfin, ?_⟩
    obtain ⟨x0, h0⟩ := register_read_trace_ex bus 0x3E s
    obtain ⟨y0, z0, hw⟩ := register_write_trace bus 0x3E 0x55 (rfm69_register_read bus 0x3E s).2
    obtain ⟨x1, hr⟩ := register_read_trace_ex bus 0x3E
      (rfm69_register_write bus 0x3E 0x55 (rfm69_register_read bus 0x3E s).2)
    refine ⟨x0, y0, z0, x1, ?_⟩
    rw [hfin]
    show (rfm69_register_read bus 0x3E
      (rfm69_register_write bus 0x3E 0x55 (rfm69_register_read bus 0x3E s).2)).2.trace = _
    rw [hr, hw, h0]
    simp only [List.append_assoc, List.cons_append, List.nil_append]
    rfl
  · intro c
    have h1 : (test_first_readback regChip c).1 = 0x55 :=
      regChip_write_then_read 0x3E 0x55 _ (by decide) (by decide)
    have h2 : (test_second_readback regChip c).1 = 0xAA :=
      regChip_write_then_read 0x3E 0xAA _ (by decide) (by decide)
    rw [hdef]
    simp [h1, h2]

/-- Witness for C11: on a bus that answers every transfer with `0x12` the
first read-back differs from `0x55`, and the call returns `-1` on the state
the first read-back left. -/
theorem rfm69_test_result_witness :
    (rfm69_test (stuckBus 0x12) ⟨(), []⟩).1 = -1 ∧
    (rfm69_test (stuckBus 0x12) ⟨(), []⟩).2 =
      (test_first_readback (stuckBus 0x12) ⟨(), []⟩).2 :=
  ⟨(rfm69_test_result (stuckBus 0x12) ⟨(), []⟩).2.1 (by decide),
    ((rfm69_test_result (stuckBus 0x12) ⟨(), []⟩).2.2.1 (by decide)).1⟩

end SelfTest

end RFM69

namespace RFM69

section RegisterAccess

variable {σ : Type}

theorem sent_append (t u : List BusEvent) : sent (t ++ u) = sent t ++ sent u := by
  induction t with
  | nil => rfl
  | cons e t ih => cases e <;> simp [sent, ih]

/-- C14. For an address `a` in `[0,127]` and a byte `v`, the bus activity of
`rfm69_register_read(a)` is exactly chip-select, a transfer of `a` (bit 7
clear), a transfer of the dummy byte `0xff`, release, and its result is the
byte the second transfer returned; the bus activity of
`rfm69_register_write(a, v)` is exactly chip-select, a transfer of `a OR 0x80`,
a transfer of `v`, release. -/
theorem register_access_trace (bus : Bus σ) (a v : Nat) (s : Dev σ)
    (ha : a < 128) (hv : v < 256) :
    (∃ x, (rfm69_register_read bus a s).2.trace =
      s.trace ++ [BusEvent.nssAssert, BusEvent.transfer a x,
        BusEvent.transfer 0xff (rfm69_register_read bus a s).1, BusEvent.nssDeassert]) ∧
    a.testBit 7 = false ∧
    (∃ y z, (rfm69_register_write bus a v s).trace =
      s.trace ++ [BusEvent.nssAssert, BusEvent.transfer (a ||| 0x80) y,
        BusEvent.transfer v z, BusEvent.nssDeassert]) ∧
    (a ||| 0x80).testBit 7 = true := by
  have h1 : a % 256 = a := Nat.mod_eq_of_lt (by omega)
  have h2 : v % 256 = v := Nat.mod_eq_of_lt hv
  have hr := register_read_trace_ex bus a s
  have hw := register_write_trace bus a v s
  have hf := read_command_flag a ha
  have hg := write_command_flag a
  rw [h1] at hr hf hg
  rw [h1, h2] at hw
  exact ⟨hr, hf, hw, hg⟩

/-- Witness for C14: reading and writing register `0x3E`. -/
theorem register_access_trace_witness :
    (rfm69_register_read (stuckBus 7) 0x3E ⟨(), []⟩).2.trace =
      [BusEvent.nssAssert, BusEvent.transfer 0x3E 7, BusEvent.transfer 0xff 7,
        BusEvent.nssDeassert] ∧
    ∃ y z, (rfm69_register_write (stuckBus 7) 0x3E 0x55 ⟨(), []⟩).trace =
      [] ++ [BusEvent.nssAssert, BusEvent.transfer (0x3E ||| 0x80) y,
        BusEvent.transfer 0x55 z, BusEvent.nssDeassert] :=
  ⟨by decide,
    (register_access_trace (stuckBus 7) 0x3E 0x55 ⟨(), []⟩ (by decide) (by decide)).2.2.1⟩

/-- C15. For every bus, `rfm69_rssi` first writes `RFM69_RSSICONFIG_RssiStart`
to `RFM69_RSSICONFIG`, then reads `RFM69_RSSICONFIG` between 1 and 50000
times, then returns what a read of `RFM69_RSSIVALUE` returns.  When the
RssiDone bit is clear in all 50000 reads, the wait has returned `E_TIMEOUT`,
and the call still performs the `RFM69_RSSIVALUE` read and returns that byte. -/
theorem rfm69_rssi_ignores_timeout (bus : Bus σ) (d : Defs) (err : ErrCodes) (s : Dev σ) :
    (∃ y z, (rssi_started bus d s).trace =
      s.trace ++ [BusEvent.nssAssert,
        BusEvent.transfer ((d.RFM69_RSSICONFIG % 256) ||| 0x80) y,
        BusEvent.transfer (d.RFM69_RSSICONFIG_RssiStart % 256) z,
        BusEvent.nssDeassert]) ∧
    (∃ k, 1 ≤ k ∧ k ≤ 50000 ∧
      rfm69_rssi bus d err s =
        rfm69_register_read bus d.RFM69_RSSIVALUE
          (after_reads bus d.RFM69_RSSICONFIG k (rssi_started bus d s))) ∧
    ((∀ k, k < 50000 →
        nth_read bus d.RFM69_RSSICONFIG k (rssi_started bus d s)
          &&& (d.RFM69_RSSICONFIG_RssiDone % 256) = 0) →
      (rfm69_wait_for_bit_high bus err d.RFM69_RSSICONFIG d.RFM69_RSSICONFIG_RssiDone
        (rssi_started bus d s)).1 = err.E_TIMEOUT ∧
      rfm69_rssi bus d err s =
        rfm69_register_read bus d.RFM69_RSSIVALUE
          (after_reads bus d.RFM69_RSSICONFIG 50000 (rssi_started bus d s))) := by
  have hdef : rfm69_rssi bus d err s =
      rfm69_register_read bus d.RFM69_RSSIVALUE
        (rfm69_wait_for_bit_high bus err d.RFM69_RSSICONFIG d.RFM69_RSSICONFIG_RssiDone
          (rssi_started bus d s)).2 := rfl
  refine ⟨register_write_trace bus _ _ s, ?_, ?_⟩
  · obtain ⟨k, h1, h2, hk⟩ := wait_for_bit_high_reads bus err d.RFM69_RSSICONFIG
      d.RFM69_RSSICONFIG_RssiDone (rssi_started bus d s)
    exact ⟨k, h1, h2, by rw [hdef, hk]⟩
  · intro h
    have hw := wait_for_bit_high_timeout bus err d.RFM69_RSSICONFIG
      d.RFM69_RSSICONFIG_RssiDone (rssi_started bus d s) h
    refine ⟨?_, ?_⟩
    · rw [hw]
    · rw [hdef, hw]

/-- Witness for C15: on a bus stuck low the wait times out and `rfm69_rssi`
is the `RFM69_RSSIVALUE` read made after the 50000 polls. -/
theorem rfm69_rssi_ignores_timeout_witness :
    (rfm69_wait_for_bit_high (stuckBus 0) sampleErr datasheet.RFM69_RSSICONFIG
      datasheet.RFM69_RSSICONFIG_RssiDone (rssi_started (stuckBus 0) datasheet ⟨(), []⟩)).1
      = -3 ∧
    rfm69_rssi (stuckBus 0) datasheet sampleErr ⟨(), []⟩ =
      rfm69_register_read (stuckBus 0) datasheet.RFM69_RSSIVALUE
        (after_reads (stuckBus 0) datasheet.RFM69_RSSICONFIG 50000
          (rssi_started (stuckBus 0) datasheet ⟨(), []⟩)) :=
  (rfm69_rssi_ignores_timeout (stuckBus 0) datasheet sampleErr ⟨(), []⟩).2.2
    (fun k _ => by simp [stuckBus_nth_read])

end RegisterAccess

end RFM69

namespace RFM69

section Configuration

variable {σ : Type}

theorem register_write_sent (bus : Bus σ) (a v : Nat) (s : Dev σ) :
    sent (rfm69_register_write bus a v s).trace =
      sent s.trace ++ [(a % 256) ||| 0x80, v % 256] := by
  obtain ⟨y, z, h⟩ := register_write_trace bus a v s
  rw [h, sent_append]
  rfl

theorem register_write_trace_length (bus : Bus σ) (a v : Nat) (s : Dev σ) :
    (rfm69_register_write bus a v s).trace.length = s.trace.length + 4 := by
  obtain ⟨y, z, h⟩ := register_write_trace bus a v s
  rw [h]
  simp

theorem config_writes_sent (bus : Bus σ) :
    ∀ (rows : List (Nat × Nat)) (s : Dev σ),
      sent (rows.foldl (fun st row => rfm69_register_write bus row.1 row.2 st) s).trace =
        sent s.trace ++ config_bytes rows ∧
      (rows.foldl (fun st row => rfm69_register_write bus row.1 row.2 st) s).trace.length =
        s.trace.length + 4 * rows.length := by
  intro rows
  induction rows with
  | nil => intro s; simp [config_bytes]
  | cons row rest ih =>
    intro s
    simp only [List.foldl_cons, List.length_cons]
    rw [(ih _).1, (ih _).2, register_write_sent, register_write_trace_length]
    refine ⟨?_, by omega⟩
    simp [config_bytes]

theorem config_run (bus : Bus σ) :
    ∀ (table : List (Nat × Nat)) (s : Dev σ), (∃ row, row ∈ table ∧ row.1 = 255) →
      rfm69_config bus table s =
        some ((config_rows table).foldl
          (fun st row => rfm69_register_write bus row.1 row.2 st) s) := by
  intro table
  induction table with
  | nil => intro s h; obtain ⟨row, hmem, _⟩ := h; cases hmem
  | cons row rest ih =>
    intro s h
    by_cases h255 : row.1 = 255
    · simp [rfm69_config, config_rows, h255]
    · have hrest : ∃ r, r ∈ rest ∧ r.1 = 255 := by
        obtain ⟨r, hmem, hr⟩ := h
        rcases List.mem_cons.1 hmem with heq | hin
        · exact absurd (heq ▸ hr) h255
        · exact ⟨r, hin, hr⟩
      have hstep : rfm69_config bus (row :: rest) s =
          rfm69_config bus rest (rfm69_register_write bus row.1 row.2 s) := by
        simp [rfm69_config, h255]
      rw [hstep, ih _ hrest]
      simp [config_rows, List.takeWhile, h255]

/-- C16. For a configuration table that contains a row with address 255,
`rfm69_config` terminates; the bus afterwards is the one reached by one
`rfm69_register_write(address, value)` per row preceding the first such row,
in table order, and these writes are its entire bus activity: the bytes sent
are the address (bit 7 set) and value of each of these rows in order, in as
many four-event transactions as there are such rows. -/
theorem rfm69_config_writes (bus : Bus σ) (table : List (Nat × Nat)) (s : Dev σ)
    (h : ∃ row, row ∈ table ∧ row.1 = 255) :
    ∃ s1, rfm69_config bus table s = some s1 ∧
      s1 = (config_rows table).foldl
        (fun st row => rfm69_register_write bus row.1 row.2 st) s ∧
      sent s1.trace = sent s.trace ++ config_bytes (config_rows table) ∧
      s1.trace.length = s.trace.length + 4 * (config_rows table).length :=
  ⟨_, config_run bus table s h, rfl, (config_writes_sent bus _ s).1,
    (config_writes_sent bus _ s).2⟩

/-- Witness for C16: a table of two rows, the sentinel row and a row after
it: exactly the first two rows are written. -/
theorem rfm69_config_writes_witness :
    ∃ s1, rfm69_config (stuckBus 0) [(0x01, 0x04), (0x02, 0x00), (255, 0), (0x03, 9)]
        ⟨(), []⟩ = some s1 ∧
      sent s1.trace = [0x81, 0x04, 0x82, 0x00] ∧ s1.trace.length = 8 := by
  obtain ⟨s1, h1, _, h3, h4⟩ := rfm69_config_writes (stuckBus 0)
    [(0x01, 0x04), (0x02, 0x00), (255, 0), (0x03, 9)] ⟨(), []⟩ ⟨(255, 0), by decide, rfl⟩
  exact ⟨s1, h1, h3.trans (by decide), h4.trans (by decide)⟩

end Configuration

end RFM69

namespace RFM69

section ChipSelect

variable {σ : Type}

theorem nss_line_append (t u : List BusEvent) :
    nss_line (t ++ u) = u.foldl (fun b e => match e with
      | BusEvent.nssAssert => true
      | BusEvent.nssDeassert => false
      | _ => b) (nss_line t) := by
  simp [nss_line, List.foldl_append]

theorem nss_line_payload (bs : List Nat) :
    ∀ t : List BusEvent,
      nss_line (t ++ bs.map (fun b => BusEvent.transfer 0 b)) = nss_line t := by
  induction bs with
  | nil => intro t; simp
  | cons b bs ih =>
    intro t
    have h := ih (t ++ [BusEvent.transfer 0 b])
    rw [List.append_assoc] at h
    rw [List.map_cons, show BusEvent.transfer 0 b :: bs.map (fun b => BusEvent.transfer 0 b)
        = [BusEvent.transfer 0 b] ++ bs.map (fun b => BusEvent.transfer 0 b) from rfl, h,
      nss_line_append]
    rfl

theorem nss_line_rx_header (bus : Bus σ) (d : Defs) (s : Dev σ) :
    nss_line (rx_header bus d s).2.trace = true := by
  obtain ⟨x, hx⟩ := rx_header_trace bus d s
  rw [hx, nss_line_append]
  rfl

theorem nss_line_after_payload (bus : Bus σ) (d : Defs) (s : Dev σ) (n : Nat) :
    nss_line (after_payload bus d s n).trace = true := by
  rw [after_payload, read_bytes_trace, nss_line_payload, nss_line_rx_header]

theorem nss_line_register_read (bus : Bus σ) (a : Nat) (s : Dev σ) :
    nss_line (rfm69_register_read bus a s).2.trace = false := by
  rw [register_read_trace, nss_line_append]
  rfl

theorem nss_line_rx_rssi (bus : Bus σ) (d : Defs) (err : ErrCodes) (rssi : Option Nat)
    (s : Dev σ) :
    nss_line (rx_rssi bus d err rssi (rfm69_nss_deassert bus s)).2.trace = false := by
  cases rssi with
  | none =>
    show nss_line (s.trace ++ [BusEvent.nssDeassert]) = false
    rw [nss_line_append]
    rfl
  | some v => exact nss_line_register_read bus _ _

/-- C17. After `rfm69_frame_rx` the chip-select line is released exactly when
the call took the success path (length byte other than `0xFF` and `maxlen`
not an index below the clamped frame length).  On the `E_SPI` return the bus
is left right after the length-byte transfer, and on the `E_PKT_TOO_LONG`
return right after payload byte `maxlen - 1`, both with chip-select still
asserted and, in the second case, with only `maxlen` of the payload bytes
transferred. -/
theorem rfm69_frame_rx_chip_select (bus : Bus σ) (d : Defs) (err : ErrCodes)
    (buf : Nat → Nat) (maxlen : Int) (rssi : Option Nat) (s : Dev σ) :
    (nss_line (rfm69_frame_rx bus d err buf maxlen rssi s).dev.trace = false ↔
      ((rx_header bus d s).1 ≠ 0xff ∧
        ∀ j : Nat, j < min (rx_header bus d s).1 66 → (j : Int) ≠ maxlen)) ∧
    ((rx_header bus d s).1 = 0xff →
      (rfm69_frame_rx bus d err buf maxlen rssi s).ret = err.E_SPI ∧
      (rfm69_frame_rx bus d err buf maxlen rssi s).dev = (rx_header bus d s).2 ∧
      nss_line (rfm69_frame_rx bus d err buf maxlen rssi s).dev.trace = true) ∧
    (∀ k : Nat, (rx_header bus d s).1 ≠ 0xff → k < min (rx_header bus d s).1 66 →
      maxlen = (k : Int) →
      (rfm69_frame_rx bus d err buf maxlen rssi s).ret = err.E_PKT_TOO_LONG ∧
      (rfm69_frame_rx bus d err buf maxlen rssi s).dev = after_payload bus d s k ∧
      nss_line (rfm69_frame_rx bus d err buf maxlen rssi s).dev.trace = true ∧
      transfers (rfm69_frame_rx bus d err buf maxlen rssi s).dev.trace =
        transfers s.trace + 2 + k) ∧
    ((rx_header bus d s).1 ≠ 0xff →
      (∀ j : Nat, j < min (rx_header bus d s).1 66 → (j : Int) ≠ maxlen) →
      (rfm69_frame_rx bus d err buf maxlen rssi s).ret =
        ((min (rx_header bus d s).1 66 : Nat) : Int) ∧
      nss_line (rfm69_frame_rx bus d err buf maxlen rssi s).dev.trace = false) := by
  have hfault : (rx_header bus d s).1 = 0xff →
      (rfm69_frame_rx bus d err buf maxlen rssi s).ret = err.E_SPI ∧
      (rfm69_frame_rx bus d err buf maxlen rssi s).dev = (rx_header bus d s).2 ∧
      nss_line (rfm69_frame_rx bus d err buf maxlen rssi s).dev.trace = true := by
    intro h
    rw [frame_rx_fault bus d err buf maxlen rssi s h]
    exact ⟨rfl, rfl, nss_line_rx_header bus d s⟩
  have hstop : ∀ k : Nat, (rx_header bus d s).1 ≠ 0xff → k < min (rx_header bus d s).1 66 →
      maxlen = (k : Int) →
      (rfm69_frame_rx bus d err buf maxlen rssi s).ret = err.E_PKT_TOO_LONG ∧
      (rfm69_frame_rx bus d err buf maxlen rssi s).dev = after_payload bus d s k ∧
      nss_line (rfm69_frame_rx bus d err buf maxlen rssi s).dev.trace = true ∧
      transfers (rfm69_frame_rx bus d err buf maxlen rssi s).dev.trace =
        transfers s.trace + 2 + k := by
    intro k h hk hm
    rw [frame_rx_stop bus d err buf maxlen rssi s k h hk hm]
    exact ⟨rfl, rfl, nss_line_after_payload bus d s k, after_payload_transfers bus d s k⟩
  have hsucc : (rx_header bus d s).1 ≠ 0xff →
      (∀ j : Nat, j < min (rx_header bus d s).1 66 → (j : Int) ≠ maxlen) →
      (rfm69_frame_rx bus d err buf maxlen rssi s).ret =
        ((min (rx_header bus d s).1 66 : Nat) : Int) ∧
      nss_line (rfm69_frame_rx bus d err buf maxlen rssi s).dev.trace = false := by
    intro h hm
    rw [frame_rx_success bus d err buf maxlen rssi s h hm]
    exact ⟨rfl, nss_line_rx_rssi bus d err rssi _⟩
  refine ⟨?_, hfault, hstop, hsucc⟩
  constructor
  · intro hline
    by_cases h : (rx_header bus d s).1 = 0xff
    · rw [(hfault h).2.2] at hline
      exact absurd hline (by decide)
    · refine ⟨h, ?_⟩
      intro j hj hjm
      rw [(hstop j h hj hjm.symm).2.2.1] at hline
      exact absurd hline (by decide)
  · intro hs
    exact (hsucc hs.1 hs.2).2

/-- Witness for C17: a frame of declared length 40 received with `maxlen = 10`
returns with chip-select asserted after 2 + 10 transfers; the same frame with
`maxlen = 40` returns with chip-select released. -/
theorem rfm69_frame_rx_chip_select_witness :
    (nss_line (rfm69_frame_rx scriptBus datasheet sampleErr (fun _ => 7) 10 none
        ⟨0 :: 40 :: List.range 40, []⟩).dev.trace = true ∧
      transfers (rfm69_frame_rx scriptBus datasheet sampleErr (fun _ => 7) 10 none
        ⟨0 :: 40 :: List.range 40, []⟩).dev.trace = 12) ∧
    nss_line (rfm69_frame_rx scriptBus datasheet sampleErr (fun _ => 7) 40 none
        ⟨0 :: 40 :: List.range 40, []⟩).dev.trace = false :=
  have h := (rfm69_frame_rx_chip_select scriptBus datasheet sampleErr (fun _ => 7) 10 none
    ⟨0 :: 40 :: List.range 40, []⟩).2.2.1 10 (by decide) (by decide) rfl
  have g := (rfm69_frame_rx_chip_select scriptBus datasheet sampleErr (fun _ => 7) 40 none
    ⟨0 :: 40 :: List.range 40, []⟩).2.2.2 (by decide) (by
      have hmin : min (rx_header scriptBus datasheet ⟨0 :: 40 :: List.range 40, []⟩).1 66
          = 40 := by decide
      rw [hmin]
      intro j hj
      omega)
  ⟨⟨h.2.2.1, h.2.2.2⟩, g.2⟩

/-- C18. For a negative `maxlen` and a length byte `L` in `[1,254]` the
comparison `i == maxlen` never holds: the payload loop runs all `min L 66`
rounds, the call stores payload byte `i` in `buf[i]` for every `i < min L 66`
and returns `min L 66`, a positive frame length, which is not
`E_PKT_TOO_LONG` when that code is negative. -/
theorem rfm69_frame_rx_negative_maxlen (bus : Bus σ) (d : Defs) (err : ErrCodes)
    (buf : Nat → Nat) (maxlen : Int) (rssi : Option Nat) (s : Dev σ)
    (hneg : maxlen < 0) (h1 : 1 ≤ (rx_header bus d s).1) (h254 : (rx_header bus d s).1 ≤ 254) :
    (rfm69_frame_rx_loop bus maxlen (min (rx_header bus d s).1 66) 0 buf
      (rx_header bus d s).2).too_long = false ∧
    (rfm69_frame_rx bus d err buf maxlen rssi s).ret =
      ((min (rx_header bus d s).1 66 : Nat) : Int) ∧
    0 < (rfm69_frame_rx bus d err buf maxlen rssi s).ret ∧
    (err.E_PKT_TOO_LONG < 0 →
      (rfm69_frame_rx bus d err buf maxlen rssi s).ret ≠ err.E_PKT_TOO_LONG) ∧
    (∀ i : Nat, i < min (rx_header bus d s).1 66 →
      (rfm69_frame_rx bus d err buf maxlen rssi s).buf i =
        (payload bus d s (min (rx_header bus d s).1 66)).getD i 0) ∧
    (∀ i : Nat, min (rx_header bus d s).1 66 ≤ i →
      (rfm69_frame_rx bus d err buf maxlen rssi s).buf i = buf i) ∧
    transfers (after_payload bus d s (min (rx_header bus d s).1 66)).trace =
      transfers s.trace + 2 + min (rx_header bus d s).1 66 ∧
    (rfm69_frame_rx bus d err buf maxlen rssi s).dev =
      (rx_rssi bus d err rssi (rfm69_nss_deassert bus
        (after_payload bus d s (min (rx_header bus d s).1 66)))).2 := by
  have hne : (rx_header bus d s).1 ≠ 0xff := by omega
  have hm : ∀ j : Nat, j < min (rx_header bus d s).1 66 → (j : Int) ≠ maxlen :=
    fun j _ => by omega
  have hloop := frame_rx_loop_all bus maxlen (min (rx_header bus d s).1 66) 0 buf
    (rx_header bus d s).2 (fun j _ _ => by omega)
  rw [frame_rx_success bus d err buf maxlen rssi s hne hm, hloop]
  refine ⟨rfl, rfl, ?_, ?_, ?_, ?_, after_payload_transfers bus d s _, rfl⟩
  · show (0 : Int) < ((min (rx_header bus d s).1 66 : Nat) : Int)
    omega
  · intro hE
    show ((min (rx_header bus d s).1 66 : Nat) : Int) ≠ err.E_PKT_TOO_LONG
    omega
  · intro i hi
    have hg := store_get (payload bus d s (min (rx_header bus d s).1 66)) buf 0 i
      (by rw [payload_length]; exact hi)
    rw [Nat.zero_add] at hg
    exact hg
  · intro i hi
    exact store_of_ge (payload bus d s (min (rx_header bus d s).1 66)) buf 0 i
      (by rw [payload_length]; omega)

/-- Witness for C18: `maxlen = -1` and a declared length of 3: three bytes
are stored and 3 is returned. -/
theorem rfm69_frame_rx_negative_maxlen_witness :
    (rfm69_frame_rx scriptBus datasheet sampleErr (fun _ => 7) (-1) none
      ⟨[0, 3, 11, 22, 33], []⟩).ret = 3 ∧
    (rfm69_frame_rx scriptBus datasheet sampleErr (fun _ => 7) (-1) none
      ⟨[0, 3, 11, 22, 33], []⟩).buf 2 = 33 :=
  have h := rfm69_frame_rx_negative_maxlen scriptBus datasheet sampleErr (fun _ => 7) (-1) none
    ⟨[0, 3, 11, 22, 33], []⟩ (by decide) (by decide) (by decide)
  ⟨h.2.1.trans (by decide), (h.2.2.2.2.1 2 (by decide)).trans (by decide)⟩

end ChipSelect

end RFM69

namespace RFM69

section FrameTransmit

variable {σ : Type}

/-- The payload loop of `rfm69_frame_tx` emits `n` transfers that send
`buf[i], ..., buf[i + n - 1]`. -/
theorem frame_tx_loop_trace (bus : Bus σ) (buf : Nat → Nat) :
    ∀ (n i : Nat) (s : Dev σ), ∃ body : List BusEvent,
      (rfm69_frame_tx_loop bus buf n i s).trace = s.trace ++ body ∧
      (∀ e, e ∈ body → ∃ o x, e = BusEvent.transfer o x) ∧
      sent body = (List.range n).map (fun j => buf (i + j) % 256) ∧
      body.length = n := by
  intro n
  induction n with
  | zero => intro i s; exact ⟨[], by simp [rfm69_frame_tx_loop], by simp, rfl, rfl⟩
  | succ n ih =>
    intro i s
    obtain ⟨body, h1, h2, h3, h4⟩ := ih (i + 1) (rfm69_spi_transfer_byte bus (buf i) s).2
    refine ⟨BusEvent.transfer (buf i % 256)
      ((bus.transfer_byte s.chip (buf i % 256)).1 % 256) :: body, ?_, ?_, ?_, ?_⟩
    · rw [rfm69_frame_tx_loop, h1]
      simp [rfm69_spi_transfer_byte]
    · intro e he
      rcases List.mem_cons.1 he with heq | hin
      · exact ⟨_, _, heq⟩
      · exact h2 e hin
    · rw [sent, h3, List.range_succ_eq_map, List.map_cons, List.map_map]
      simp only [Nat.add_zero, List.cons.injEq, true_and]
      apply List.map_congr_left
      intro j _
      simp only [Function.comp]
      congr 2
      omega
    · simp [h4]

/-- C12. For `0 ≤ len ≤ 255` and a buffer of bytes, `rfm69_frame_tx` is, in
this order: `rfm69_mode` for STANDBY; one chip-select transaction whose
transfers send exactly `RFM69_FIFO OR 0x80`, `len`, `buf[0]`, ...,
`buf[len-1]`; `rfm69_mode` for TRANSMIT; the bounded wait on the PacketSent bit
of `RFM69_IRQFLAGS2`, that is, between 1 and 50000 reads of that register.
Nothing in it depends on the results of the two mode changes or of the wait. -/
theorem rfm69_frame_tx_sequence (bus : Bus σ) (d : Defs) (err : ErrCodes) (buf : Nat → Nat)
    (len : Int) (s : Dev σ) (h0 : 0 ≤ len) (h255 : len ≤ 255)
    (hbuf : ∀ i, i < len.toNat → buf i < 256) :
    (∃ body : List BusEvent,
      (tx_fifo bus d buf len (tx_standby bus d err s)).trace =
        (tx_standby bus d err s).trace ++ [BusEvent.nssAssert] ++ body
          ++ [BusEvent.nssDeassert] ∧
      (∀ e, e ∈ body → ∃ o x, e = BusEvent.transfer o x) ∧
      sent body =
        ((d.RFM69_FIFO ||| 0x80) % 256) :: len.toNat :: (List.range len.toNat).map buf ∧
      body.length = len.toNat + 2) ∧
    rfm69_frame_tx bus d err buf len s =
      (rfm69_wait_for_bit_high bus err d.RFM69_IRQFLAGS2 d.RFM69_IRQFLAGS2_PacketSent
        (tx_transmit bus d err buf len s)).2 ∧
    (∃ k, 1 ≤ k ∧ k ≤ 50000 ∧
      rfm69_frame_tx bus d err buf len s =
        after_reads bus d.RFM69_IRQFLAGS2 k (tx_transmit bus d err buf len s)) := by
  refine ⟨?_, rfl, ?_⟩
  · obtain ⟨body, h1, h2, h3, h4⟩ := frame_tx_loop_trace bus buf len.toNat 0
      (rfm69_spi_transfer_byte bus (len % 256).toNat
        (rfm69_spi_transfer_byte bus (d.RFM69_FIFO ||| 0x80)
          (rfm69_nss_assert bus (tx_standby bus d err s))).2).2
    have hlen : (len % 256).toNat = len.toNat := by
      rw [Int.emod_eq_of_lt h0 (by omega)]
    have hlen2 : len.toNat % 256 = len.toNat := Nat.mod_eq_of_lt (by omega)
    refine ⟨BusEvent.transfer ((d.RFM69_FIFO ||| 0x80) % 256)
        ((bus.transfer_byte (bus.nss_assert (tx_standby bus d err s).chip)
          ((d.RFM69_FIFO ||| 0x80) % 256)).1 % 256) ::
      BusEvent.transfer len.toNat
        ((bus.transfer_byte (bus.transfer_byte (bus.nss_assert (tx_standby bus d err s).chip)
          ((d.RFM69_FIFO ||| 0x80) % 256)).2 len.toNat).1 % 256) :: body, ?_, ?_, ?_, ?_⟩
    · show (rfm69_frame_tx_loop bus buf len.toNat 0 _).trace ++ [BusEvent.nssDeassert] = _
      rw [h1]
      simp [rfm69_spi_transfer_byte, rfm69_nss_assert, hlen, hlen2]
    · intro e he
      rcases List.mem_cons.1 he with heq | hin
      · exact ⟨_, _, heq⟩
      · rcases List.mem_cons.1 hin with heq | hin2
        · exact ⟨_, _, heq⟩
        · exact h2 e hin2
    · rw [sent, sent, h3]
      simp only [List.cons.injEq, true_and]
      apply List.map_congr_left
      intro j hj
      rw [Nat.zero_add]
      exact Nat.mod_eq_of_lt (hbuf j (List.mem_range.1 hj))
    · simp [h4]
  · exact wait_for_bit_high_reads bus err _ _ (tx_transmit bus d err buf len s)

/-- Witness for C12: transmitting the three bytes `11, 22, 33`. -/
theorem rfm69_frame_tx_sequence_witness :
    ∃ body : List BusEvent,
      (tx_fifo (stuckBus 255) datasheet (fun i => 11 * (i + 1)) 3
        (tx_standby (stuckBus 255) datasheet sampleErr ⟨(), []⟩)).trace =
        (tx_standby (stuckBus 255) datasheet sampleErr ⟨(), []⟩).trace
          ++ [BusEvent.nssAssert] ++ body ++ [BusEvent.nssDeassert] ∧
      sent body = [0x80, 3, 11, 22, 33] := by
  obtain ⟨body, h1, _, h3, _⟩ := (rfm69_frame_tx_sequence (stuckBus 255) datasheet sampleErr
    (fun i => 11 * (i + 1)) 3 ⟨(), []⟩ (by decide) (by decide)
    (fun i hi => by
      have : i < 3 := hi
      show 11 * (i + 1) < 256
      omega)).1
  exact ⟨body, h1, h3.trans (by decide)⟩

end FrameTransmit

end RFM69

namespace RFM69

section OpmodeWrites

variable {σ : Type}

/-! ## Counting writes to the operating-mode register -/

theorem writes_to_append (c : Nat) (u : List BusEvent) (k : Nat)
    (hu : ∀ b, writes_to c b u = k) :
    ∀ (t : List BusEvent) (b : Bool), writes_to c b (t ++ u) = writes_to c b t + k := by
  intro t
  induction t with
  | nil => intro b; simp [writes_to, hu]
  | cons e t ih =>
    intro b
    cases e <;> cases b <;> simp [writes_to, ih, Nat.add_assoc]

theorem emits_count (c : Nat) (s s1 : Dev σ) (k : Nat) (h : emits c s s1 k) :
    writes_to c false (emitted s s1) = k := by
  obtain ⟨seg, h1, h2⟩ := h
  rw [emitted, h1, List.drop_left]
  exact h2 false

theorem emits_trans (c : Nat) (s s1 s2 : Dev σ) (k1 k2 : Nat)
    (h1 : emits c s s1 k1) (h2 : emits c s1 s2 k2) : emits c s s2 (k1 + k2) := by
  obtain ⟨u1, e1, c1⟩ := h1
  obtain ⟨u2, e2, c2⟩ := h2
  refine ⟨u1 ++ u2, by rw [e2, e1, List.append_assoc], ?_⟩
  intro b
  rw [writes_to_append c u2 k2 c2 u1 b, c1 b]

theorem emits_register_read (bus : Bus σ) (c a : Nat) (s : Dev σ) (h : a % 256 ≠ c) :
    emits c s (rfm69_register_read bus a s).2 0 := by
  refine ⟨_, register_read_trace bus a s, ?_⟩
  intro b
  simp [writes_to, h]

theorem emits_register_write (bus : Bus σ) (c a v : Nat) (s : Dev σ) :
    emits c s (rfm69_register_write bus a v s) (if (a % 256) ||| 0x80 = c then 1 else 0) := by
  obtain ⟨y, z, h⟩ := register_write_trace bus a v s
  refine ⟨_, h, ?_⟩
  intro b
  simp [writes_to]

theorem emits_after_reads (bus : Bus σ) (c a : Nat) (h : a % 256 ≠ c) :
    ∀ (k : Nat) (s : Dev σ), emits c s (after_reads bus a k s) 0 := by
  intro k
  induction k with
  | zero => intro s; exact ⟨[], by simp [after_reads], fun b => by cases b <;> rfl⟩
  | succ k ih =>
    intro s
    exact emits_trans c s _ _ 0 0 (emits_register_read bus c a s h) (ih _)

theorem emits_wait (bus : Bus σ) (err : ErrCodes) (c a mask : Nat) (s : Dev σ)
    (h : a % 256 ≠ c) : emits c s (rfm69_wait_for_bit_high bus err a mask s).2 0 := by
  obtain ⟨k, _, _, hk⟩ := wait_for_bit_high_reads bus err a mask s
  rw [hk]
  exact emits_after_reads bus c a h k s

theorem read_command_ne (d : Defs) (a : Nat) (ha : a < 128) :
    a % 256 ≠ opmode_write_command d := by
  intro h
  have h1 := read_command_flag a ha
  have h2 := write_command_flag d.RFM69_OPMODE
  rw [h] at h1
  rw [opmode_write_command, h2] at h1
  exact absurd h1 (by decide)

theorem write_command_ne (d : Defs) (a : Nat) (ha : a < 128) (ho : d.RFM69_OPMODE < 128)
    (hne : a ≠ d.RFM69_OPMODE) : (a % 256) ||| 0x80 ≠ opmode_write_command d := by
  intro h
  apply hne
  have h1 := write_command_addr a ha
  have h2 := write_command_addr d.RFM69_OPMODE ho
  rw [opmode_write_command] at h
  rw [h] at h1
  exact h1.symm.trans h2

/-- A call of `rfm69_mode` issues exactly one write to `RFM69_OPMODE`. -/
theorem emits_mode (bus : Bus σ) (d : Defs) (err : ErrCodes) (mode : Nat) (s : Dev σ)
    (hreg : regular_map d) :
    emits (opmode_write_command d) s (rfm69_mode bus d err mode s).2 1 := by
  obtain ⟨ho, _, h1, _⟩ := hreg
  have hr := emits_register_read bus (opmode_write_command d) d.RFM69_OPMODE s
    (read_command_ne d _ ho)
  have hw := emits_register_write bus (opmode_write_command d) d.RFM69_OPMODE
    (opmode_update d mode (rfm69_register_read bus d.RFM69_OPMODE s).1)
    (rfm69_register_read bus d.RFM69_OPMODE s).2
  have hwait := emits_wait bus err (opmode_write_command d) d.RFM69_IRQFLAGS1
    d.RFM69_IRQFLAGS1_ModeReady (mode_written bus d mode s) (read_command_ne d _ h1)
  have hc : (d.RFM69_OPMODE % 256) ||| 0x80 = opmode_write_command d := rfl
  rw [if_pos hc] at hw
  exact emits_trans _ _ _ _ 0 1 hr (emits_trans _ _ _ _ 1 0 hw hwait)

theorem emits_rssi (bus : Bus σ) (d : Defs) (err : ErrCodes) (s : Dev σ)
    (hreg : regular_map d) :
    emits (opmode_write_command d) s (rfm69_rssi bus d err s).2 0 := by
  obtain ⟨ho, _, _, _, hc, hv, _, hne, _⟩ := hreg
  have hw := emits_register_write bus (opmode_write_command d) d.RFM69_RSSICONFIG
    d.RFM69_RSSICONFIG_RssiStart s
  rw [if_neg (write_command_ne d _ hc ho hne)] at hw
  have hwait := emits_wait bus err (opmode_write_command d) d.RFM69_RSSICONFIG
    d.RFM69_RSSICONFIG_RssiDone (rssi_started bus d s) (read_command_ne d _ hc)
  have hr := emits_register_read bus (opmode_write_command d) d.RFM69_RSSIVALUE
    (rfm69_wait_for_bit_high bus err d.RFM69_RSSICONFIG d.RFM69_RSSICONFIG_RssiDone
      (rssi_started bus d s)).2 (read_command_ne d _ hv)
  exact emits_trans _ _ _ _ 0 0 hw (emits_trans _ _ _ _ 0 0 hwait hr)

end OpmodeWrites

end RFM69

namespace RFM69

section OpmodeWriteClaims

variable {σ : Type}

theorem writes_to_transfers (c : Nat) (u : List BusEvent) :
    ∀ body : List BusEvent, (∀ e, e ∈ body → ∃ o x, e = BusEvent.transfer o x) →
      writes_to c false (body ++ u) = writes_to c false u := by
  intro body
  induction body with
  | nil => intro _; rfl
  | cons e body ih =>
    intro h
    obtain ⟨o, x, rfl⟩ := h e (List.mem_cons_self _ _)
    rw [List.cons_append, writes_to]
    exact ih (fun e he => h e (List.mem_cons_of_mem _ he))

theorem emits_after_payload (bus : Bus σ) (d : Defs) (s : Dev σ) (n : Nat)
    (hreg : regular_map d) :
    emits (opmode_write_command d) s (after_payload bus d s n) 0 := by
  obtain ⟨x, hx⟩ := after_payload_trace bus d s n
  rw [List.append_assoc] at hx
  refine ⟨_, hx, ?_⟩
  intro b
  have hf : ¬ (d.RFM69_FIFO % 256 = opmode_write_command d) :=
    read_command_ne d _ hreg.2.1
  have ht := writes_to_transfers (opmode_write_command d) []
    (BusEvent.transfer 0 (rx_header bus d s).1 ::
      (payload bus d s n).map (fun b => BusEvent.transfer 0 b))
    (by
      intro e he
      rcases List.mem_cons.1 he with heq | hin
      · exact ⟨_, _, heq⟩
      · obtain ⟨v, _, hv⟩ := List.mem_map.1 hin
        exact ⟨_, _, hv.symm⟩)
  rw [List.append_nil] at ht
  cases b <;> simp [writes_to, hf] <;> exact ht

theorem emits_frame_rx (bus : Bus σ) (d : Defs) (err : ErrCodes) (buf : Nat → Nat)
    (maxlen : Int) (rssi : Option Nat) (s : Dev σ) (hreg : regular_map d) :
    emits (opmode_write_command d) s (rfm69_frame_rx bus d err buf maxlen rssi s).dev 0 := by
  by_cases h : (rx_header bus d s).1 = 0xff
  · rw [frame_rx_fault bus d err buf maxlen rssi s h]
    exact emits_after_payload bus d s 0 hreg
  · by_cases hm : ∀ j : Nat, j < min (rx_header bus d s).1 66 → (j : Int) ≠ maxlen
    · rw [frame_rx_success bus d err buf maxlen rssi s h hm]
      have h1 := emits_after_payload bus d s (min (rx_header bus d s).1 66) hreg
      have h2 : emits (opmode_write_command d)
          (after_payload bus d s (min (rx_header bus d s).1 66))
          (rfm69_nss_deassert bus (after_payload bus d s (min (rx_header bus d s).1 66))) 0 :=
        ⟨[BusEvent.nssDeassert], rfl, fun b => by cases b <;> rfl⟩
      have h3 : emits (opmode_write_command d)
          (rfm69_nss_deassert bus (after_payload bus d s (min (rx_header bus d s).1 66)))
          (rx_rssi bus d err rssi (rfm69_nss_deassert bus
            (after_payload bus d s (min (rx_header bus d s).1 66)))).2 0 := by
        cases rssi with
        | none => exact ⟨[], by simp [rx_rssi], fun b => by cases b <;> rfl⟩
        | some v => exact emits_rssi bus d err _ hreg
      exact emits_trans _ _ _ _ 0 0 h1 (emits_trans _ _ _ _ 0 0 h2 h3)
    · have hex : ∃ j : Nat, j < min (rx_header bus d s).1 66 ∧ maxlen = (j : Int) := by
        by_contra hcon
        exact hm (fun j hj hjm => hcon ⟨j, hj, hjm.symm⟩)
      obtain ⟨k, hk, hkm⟩ := hex
      rw [frame_rx_stop bus d err buf maxlen rssi s k h hk hkm]
      exact emits_after_payload bus d s k hreg

theorem emits_tx_fifo (bus : Bus σ) (d : Defs) (buf : Nat → Nat) (len : Int) (s : Dev σ)
    (hreg : regular_map d) :
    emits (opmode_write_command d) s (tx_fifo bus d buf len s) 0 := by
  obtain ⟨body, h1, h2, _, _⟩ := frame_tx_loop_trace bus buf len.toNat 0
    (rfm69_spi_transfer_byte bus (len % 256).toNat
      (rfm69_spi_transfer_byte bus (d.RFM69_FIFO ||| 0x80) (rfm69_nss_assert bus s)).2).2
  have hcmd : (d.RFM69_FIFO ||| 0x80) % 256 ≠ opmode_write_command d := by
    have hw := write_command_ne d d.RFM69_FIFO hreg.2.1 hreg.1 hreg.2.2.2.2.2.2.1
    have hb := write_command_byte d.RFM69_FIFO
    rw [Nat.mod_eq_of_lt (show d.RFM69_FIFO < 256 by have := hreg.2.1; omega)] at hw hb
    rw [hb]
    exact hw
  refine ⟨BusEvent.nssAssert ::
    BusEvent.transfer ((d.RFM69_FIFO ||| 0x80) % 256)
      ((bus.transfer_byte (bus.nss_assert s.chip) ((d.RFM69_FIFO ||| 0x80) % 256)).1 % 256) ::
    BusEvent.transfer ((len % 256).toNat % 256)
      ((bus.transfer_byte (bus.transfer_byte (bus.nss_assert s.chip)
        ((d.RFM69_FIFO ||| 0x80) % 256)).2 ((len % 256).toNat % 256)).1 % 256) ::
    (body ++ [BusEvent.nssDeassert]), ?_, ?_⟩
  · show (rfm69_frame_tx_loop bus buf len.toNat 0 _).trace ++ [BusEvent.nssDeassert] = _
    rw [h1]
    simp [rfm69_spi_transfer_byte, rfm69_nss_assert]
  · intro b
    have ht := writes_to_transfers (opmode_write_command d) [BusEvent.nssDeassert] body h2
    cases b <;> simp [writes_to, hcmd] <;> rw [ht] <;> rfl

theorem emits_temperature_tail (bus : Bus σ) (d : Defs) (err : ErrCodes) (s : Dev σ)
    (hreg : regular_map d) :
    emits (opmode_write_command d) (temp_standby bus d err s)
      (rfm69_temperature bus d err s).2 1 := by
  obtain ⟨ho, _, _, _, _, _, _, _, h4e⟩ := hreg
  have hw := emits_register_write bus (opmode_write_command d) 0x4E 0x8
    (temp_standby bus d err s)
  rw [if_neg (write_command_ne d 0x4E (by decide) ho (fun h => h4e h.symm))] at hw
  have hd : emits (opmode_write_command d)
      (rfm69_register_write bus 0x4E 0x8 (temp_standby bus d err s))
      (delayMilliseconds bus 20 (rfm69_register_write bus 0x4E 0x8 (temp_standby bus d err s)))
      0 := ⟨[BusEvent.delay 20], rfl, fun b => by cases b <;> rfl⟩
  have hr := emits_register_read bus (opmode_write_command d) 0x4F
    (delayMilliseconds bus 20 (rfm69_register_write bus 0x4E 0x8 (temp_standby bus d err s)))
    (read_command_ne d 0x4F (by decide))
  have hfin := emits_register_write bus (opmode_write_command d) d.RFM69_OPMODE
    (rfm69_register_read bus d.RFM69_OPMODE s).1
    (rfm69_register_read bus 0x4F (delayMilliseconds bus 20
      (rfm69_register_write bus 0x4E 0x8 (temp_standby bus d err s)))).2
  have hc : (d.RFM69_OPMODE % 256) ||| 0x80 = opmode_write_command d := rfl
  rw [if_pos hc] at hfin
  exact emits_trans _ _ _ _ 0 1 hw (emits_trans _ _ _ _ 0 1 hd
    (emits_trans _ _ _ _ 0 1 hr hfin))

end OpmodeWriteClaims

end RFM69

namespace RFM69

section ModeOwnership

variable {σ : Type}

/-- C13 as stated fails for `rfm69_temperature`: on a bus that answers every
transfer with `0xFF`, the bus events it issues after its `rfm69_mode` call has
returned are the trigger write, the delay, the temperature read and a write
to `RFM69_OPMODE` (command byte `0x81`), so one write to the operating-mode
register is issued outside `rfm69_mode`. -/
theorem rfm69_temperature_direct_opmode_write :
    emitted (temp_standby (stuckBus 255) datasheet sampleErr ⟨(), []⟩)
        (rfm69_temperature (stuckBus 255) datasheet sampleErr ⟨(), []⟩).2 =
      [BusEvent.nssAssert, BusEvent.transfer 0xCE 255, BusEvent.transfer 8 255,
        BusEvent.nssDeassert,
        BusEvent.delay 20,
        BusEvent.nssAssert, BusEvent.transfer 0x4F 255, BusEvent.transfer 0xff 255,
        BusEvent.nssDeassert,
        BusEvent.nssAssert, BusEvent.transfer 0x81 255, BusEvent.transfer 255 255,
        BusEvent.nssDeassert] ∧
    opmode_writes datasheet
      (emitted (temp_standby (stuckBus 255) datasheet sampleErr ⟨(), []⟩)
        (rfm69_temperature (stuckBus 255) datasheet sampleErr ⟨(), []⟩).2) = 1 := by
  refine ⟨by decide, by decide⟩

/-- C13 (amended). On a register map with 7-bit addresses in which the
operating-mode register differs from the FIFO, the RSSI configuration
register and `0x4E`: in `rfm69_frame_tx` each of the two `rfm69_mode` calls
issues one write to `RFM69_OPMODE` and the FIFO transaction and the final wait
issue none; `rfm69_frame_rx` issues none; in `rfm69_temperature` the saving
read issues none, the `rfm69_mode` call issues one, and the rest of the call
issues exactly one, directly: its last transaction, which writes the saved
value back. -/
theorem opmode_writes_by_operation (bus : Bus σ) (d : Defs) (err : ErrCodes)
    (buf : Nat → Nat) (len maxlen : Int) (rssi : Option Nat) (s : Dev σ)
    (hreg : regular_map d) :
    (opmode_writes d (emitted s (tx_standby bus d err s)) = 1 ∧
      opmode_writes d (emitted (tx_standby bus d err s)
        (tx_fifo bus d buf len (tx_standby bus d err s))) = 0 ∧
      opmode_writes d (emitted (tx_fifo bus d buf len (tx_standby bus d err s))
        (tx_transmit bus d err buf len s)) = 1 ∧
      opmode_writes d (emitted (tx_transmit bus d err buf len s)
        (rfm69_frame_tx bus d err buf len s)) = 0 ∧
      opmode_writes d (emitted s (rfm69_frame_tx bus d err buf len s)) = 2) ∧
    opmode_writes d (emitted s (rfm69_frame_rx bus d err buf maxlen rssi s).dev) = 0 ∧
    (opmode_writes d (emitted s (temp_saved bus d s)) = 0 ∧
      opmode_writes d (emitted (temp_saved bus d s) (temp_standby bus d err s)) = 1 ∧
      opmode_writes d (emitted (temp_standby bus d err s)
        (rfm69_temperature bus d err s).2) = 1 ∧
      opmode_writes d (emitted s (rfm69_temperature bus d err s).2) = 2 ∧
      ∃ pre y z, (rfm69_temperature bus d err s).2.trace =
        pre ++ [BusEvent.nssAssert, BusEvent.transfer (opmode_write_command d) y,
          BusEvent.transfer (rfm69_register_read bus d.RFM69_OPMODE s).1 z,
          BusEvent.nssDeassert]) := by
  have e1 := emits_mode bus d err d.RFM69_OPMODE_Mode_STDBY s hreg
  have e2 := emits_tx_fifo bus d buf len (tx_standby bus d err s) hreg
  have e3 := emits_mode bus d err d.RFM69_OPMODE_Mode_TX
    (tx_fifo bus d buf len (tx_standby bus d err s)) hreg
  have e4 := emits_wait bus err (opmode_write_command d) d.RFM69_IRQFLAGS2
    d.RFM69_IRQFLAGS2_PacketSent (tx_transmit bus d err buf len s)
    (read_command_ne d _ hreg.2.2.2.1)
  have t1 := emits_register_read bus (opmode_write_command d) d.RFM69_OPMODE s
    (read_command_ne d _ hreg.1)
  have t2 := emits_mode bus d err d.RFM69_OPMODE_Mode_STDBY (temp_saved bus d s) hreg
  have t3 := emits_temperature_tail bus d err s hreg
  refine ⟨⟨emits_count _ _ _ _ e1, emits_count _ _ _ _ e2, emits_count _ _ _ _ e3,
      emits_count _ _ _ _ e4, ?_⟩,
    emits_count _ _ _ _ (emits_frame_rx bus d err buf maxlen rssi s hreg),
    emits_count _ _ _ _ t1, emits_count _ _ _ _ t2, emits_count _ _ _ _ t3, ?_, ?_⟩
  · exact emits_count _ _ _ _
      (emits_trans _ _ _ _ 1 1 e1 (emits_trans _ _ _ _ 0 1 e2 (emits_trans _ _ _ _ 1 0 e3 e4)))
  · exact emits_count _ _ _ _
      (emits_trans _ _ _ _ 0 2 t1 (emits_trans _ _ _ _ 1 1 t2 t3))
  · obtain ⟨y, z, hw⟩ := register_write_trace bus d.RFM69_OPMODE
      (rfm69_register_read bus d.RFM69_OPMODE s).1
      (rfm69_register_read bus 0x4F (delayMilliseconds bus 20
        (rfm69_register_write bus 0x4E 0x8 (temp_standby bus d err s)))).2
    rw [Nat.mod_eq_of_lt (register_read_lt bus d.RFM69_OPMODE s)] at hw
    exact ⟨_, y, z, hw⟩

/-- Witness for C13 (amended), on the data-sheet register map. -/
theorem opmode_writes_by_operation_witness :
    opmode_writes datasheet (emitted (⟨[0, 3, 11, 22, 33], []⟩ : Dev (List Nat))
      (rfm69_frame_rx scriptBus datasheet sampleErr (fun _ => 7) 3 none
        ⟨[0, 3, 11, 22, 33], []⟩).dev) = 0 ∧
    opmode_writes datasheet (emitted (⟨[0, 3, 11, 22, 33], []⟩ : Dev (List Nat))
      (rfm69_frame_tx scriptBus datasheet sampleErr (fun _ => 7) 3
        ⟨[0, 3, 11, 22, 33], []⟩)) = 2 :=
  have h := opmode_writes_by_operation scriptBus datasheet sampleErr (fun _ => 7) 3 3 none
    ⟨[0, 3, 11, 22, 33], []⟩ (by decide)
  ⟨h.2.1, h.1.2.2.2.2⟩

end ModeOwnership

end RFM69
